import Mathlib

/-!
Shallow embedding of the nuxieio/payments webhook reconciliation code.

The embedding follows `src/db/models/*.rs` (data model and storage
operations) and `src/webhooks/apple.rs`, `src/webhooks/google.rs`
(notification handlers).  The SQLite database is modelled as lists of
rows; `chrono::DateTime<Utc>` timestamps are modelled as integers;
fallible paths return `Except`, with errors carrying the database state
at the point of failure (the Rust code has no transactions, so writes
performed before an error persist).

Two systematic modelling choices:
  * The Rust handlers bind hard-coded mock values (comments in the
    source say a real implementation would decode them from the signed
    payload, e.g. `let original_transaction_id = "mock_original_transaction_id"`).
    The embedding takes those decoded values as explicit parameters; the
    control flow and every database access after the bindings follow the
    source line by line.
  * `Uuid::new_v4()` is modelled by a freshness counter in the database
    state.  Row updates keyed on the UUID primary key `id` are modelled
    as an in-place map over the row list.
-/

namespace Payments

/-- Timestamps (`chrono::DateTime<Utc>`), modelled as integers. -/
abbrev Time := Int

/-- Row of the `users` table (src/db/models/user.rs). -/
structure User where
  id : String
  app_user_id : String
  email : Option String
  created_at : Time
  updated_at : Time
deriving Repr, DecidableEq

/-- Row of the `products` table (src/db/models/product.rs).  `price_usd`
is an `Option<f64>` never inspected by the webhook paths; it is modelled
as an integer-valued option. -/
structure Product where
  id : String
  name : String
  description : Option String
  apple_product_id : Option String
  google_product_id : Option String
  type_ : String
  price_usd : Option Int
  duration_days : Option Int
  created_at : Time
  updated_at : Time
deriving Repr, DecidableEq

/-- Row of the `subscriptions` table (src/db/models/subscription.rs).
`price_paid` is an `Option<f64>` never inspected by the webhook paths. -/
structure Subscription where
  id : String
  user_id : String
  product_id : String
  original_transaction_id : Option String
  store_transaction_id : Option String
  store : String
  purchase_date : Time
  expires_date : Option Time
  cancellation_date : Option Time
  renewal_grace_period_expires_date : Option Time
  status : String
  auto_renew_status : Option Bool
  price_paid : Option Int
  currency : Option String
  is_trial : Bool
  is_intro_offer : Bool
  created_at : Time
  updated_at : Time
deriving Repr, DecidableEq

/-- Row of the `user_entitlements` table (src/db/models/entitlement.rs). -/
structure UserEntitlement where
  id : String
  user_id : String
  entitlement_id : String
  subscription_id : Option String
  starts_at : Time
  expires_at : Option Time
  created_at : Time
  updated_at : Time
deriving Repr, DecidableEq

/-- `SubscriptionStatus` enum (src/db/models/subscription.rs). -/
inductive SubscriptionStatus where
  | Active
  | Expired
  | Cancelled
  | GracePeriod
  | Refunded
  | Paused
deriving Repr, DecidableEq

/-- `SubscriptionStatus::to_string` (src/db/models/subscription.rs). -/
def SubscriptionStatus.toStr : SubscriptionStatus → String
  | .Active => "active"
  | .Expired => "expired"
  | .Cancelled => "cancelled"
  | .GracePeriod => "grace_period"
  | .Refunded => "refunded"
  | .Paused => "paused"

/-- `AppError` (src/error.rs). -/
inductive AppError where
  | DatabaseError : String → AppError
  | NotFound : String → AppError
  | BadRequest : String → AppError
  | Unauthorized : String → AppError
  | ValidationError : String → AppError
  | StoreApiError : String → AppError
  | InternalServerError : String → AppError
deriving Repr, DecidableEq

/-- HTTP status assigned to each error by `IntoResponse for AppError`
(src/error.rs). -/
def AppError.statusCode : AppError → Nat
  | .DatabaseError _ => 500
  | .NotFound _ => 404
  | .BadRequest _ => 400
  | .Unauthorized _ => 401
  | .ValidationError _ => 400
  | .StoreApiError _ => 502
  | .InternalServerError _ => 500

/-- The SQLite database: one list of rows per table, plus the
`product_entitlements` join table as (product_id, entitlement_id)
pairs, plus a freshness counter standing in for `Uuid::new_v4()`. -/
structure Db where
  users : List User
  products : List Product
  product_entitlements : List (String × String)
  subscriptions : List Subscription
  user_entitlements : List UserEntitlement
  next_id : Nat
deriving Repr, DecidableEq

/-- Fresh UUID generation (`Uuid::new_v4().to_string()`). -/
def Db.genId (db : Db) : String × Db :=
  ("uuid-" ++ toString db.next_id, { db with next_id := db.next_id + 1 })

/-- `User::create` — INSERT INTO users. -/
def Db.insertUser (db : Db) (u : User) : Db :=
  { db with users := db.users ++ [u] }

/-- `Subscription::create` — INSERT INTO subscriptions. -/
def Db.insertSubscription (db : Db) (s : Subscription) : Db :=
  { db with subscriptions := db.subscriptions ++ [s] }

/-- `UserEntitlement::create` — INSERT INTO user_entitlements. -/
def Db.insertUserEntitlement (db : Db) (e : UserEntitlement) : Db :=
  { db with user_entitlements := db.user_entitlements ++ [e] }

/-- UPDATE of a subscription row keyed on its primary key `id`
(shared by `update`, `update_status`, `cancel`, `update_expiry`,
`update_auto_renew_status` in src/db/models/subscription.rs). -/
def Db.writeSubscription (db : Db) (s : Subscription) : Db :=
  { db with subscriptions := db.subscriptions.map (fun r => if r.id == s.id then s else r) }

/-- `User::find_by_app_user_id` — SELECT * FROM users WHERE app_user_id = ?. -/
def User.find_by_app_user_id (app_user_id : String) (db : Db) : Option User :=
  db.users.find? (fun u => u.app_user_id == app_user_id)

/-- `Product.find_by_store_product_id` (src/db/models/product.rs): the
branch on the store string, with the unknown-store branch returning
`sqlx::Error::RowNotFound`, which `AppError::from` wraps as
`DatabaseError`. -/
def Product.find_by_store_product_id (store store_product_id : String) (db : Db) :
    Except AppError (Option Product) :=
  match store with
  | "apple" => .ok (db.products.find? (fun p => p.apple_product_id == some store_product_id))
  | "google" => .ok (db.products.find? (fun p => p.google_product_id == some store_product_id))
  | _ => .error (.DatabaseError ("RowNotFound"))

/-- `Product::find_by_id` — SELECT * FROM products WHERE id = ?. -/
def Product.find_by_id (id : String) (db : Db) : Option Product :=
  db.products.find? (fun p => p.id == id)

/-- `Product::get_entitlements` — SELECT entitlement_id FROM
product_entitlements WHERE product_id = ?. -/
def Product.get_entitlements (p : Product) (db : Db) : List String :=
  (db.product_entitlements.filter (fun pe => pe.1 == p.id)).map (fun pe => pe.2)

/-- `Subscription::find_by_store_transaction` — first row with the given
store whose store_transaction_id or original_transaction_id matches. -/
def Subscription.find_by_store_transaction (store transaction_id : String) (db : Db) :
    Option Subscription :=
  db.subscriptions.find? (fun s =>
    s.store == store &&
      (s.store_transaction_id == some transaction_id ||
        s.original_transaction_id == some transaction_id))

/-- The activity filter of `UserEntitlement::list_active_for_user`:
starts_at <= now AND (expires_at IS NULL OR expires_at > now). -/
def UserEntitlement.isActiveAt (e : UserEntitlement) (now : Time) : Bool :=
  decide (e.starts_at ≤ now) &&
    (match e.expires_at with
     | none => true
     | some x => decide (now < x))

/-- The entitlement cascade shared by all mutation paths: fetch
`list_active_for_user(user_id, now)`, and for each fetched row whose
`subscription_id` equals the subscription's id, run
`update_expiry(new_expires)` (or `revoke`, which is `update_expiry`
with `Some(now)`); both set `updated_at` to now. -/
def cascadeRow (user_id sub_id : String) (now : Time) (new_expires : Option Time)
    (e : UserEntitlement) : UserEntitlement :=
  if e.user_id == user_id && e.isActiveAt now && e.subscription_id == some sub_id
  then { e with expires_at := new_expires, updated_at := now }
  else e

/-- The cascade applied to the whole table. -/
def Db.cascadeExpiry (db : Db) (user_id sub_id : String) (now : Time)
    (new_expires : Option Time) : Db :=
  { db with user_entitlements := db.user_entitlements.map (cascadeRow user_id sub_id now new_expires) }

/-- The entitlement-granting loop of the purchase/restart handlers:
for each entitlement id, `UserEntitlement::new` (fresh UUID) followed by
`create`. -/
def grantEntitlements (user_id sub_id : String) (starts_at : Time)
    (expires_at : Option Time) (now : Time) :
    List String → Db → Db
  | [], db => db
  | eid :: rest, db =>
    let p := db.genId
    grantEntitlements user_id sub_id starts_at expires_at now rest
      (p.2.insertUserEntitlement
        { id := p.1, user_id := user_id, entitlement_id := eid,
          subscription_id := some sub_id, starts_at := starts_at,
          expires_at := expires_at, created_at := now, updated_at := now })

/-- `AppleNotificationData` (src/webhooks/apple.rs). -/
structure AppleNotificationData where
  app_apple_id : Option String
  bundle_id : Option String
  bundle_version : Option String
  environment : Option String
  signed_renewal_info : Option String
  signed_transaction_info : Option String
deriving Repr, DecidableEq

/-- `AppleNotificationPayload` (src/webhooks/apple.rs). -/
structure AppleNotificationPayload where
  notification_type : String
  sub_type : Option String
  notification_uuid : String
  version : String
  data : AppleNotificationData
  signed_date : Time
deriving Repr, DecidableEq

/-- Values each Apple handler binds as hard-coded mocks where a real
implementation would decode `signedTransactionInfo` /
`signedRenewalInfo`; taken as parameters (see the module comment). -/
structure AppleMockDecoded where
  transaction_id : String
  original_transaction_id : String
  product_id : String
  app_account_token : Option String
  expires_date : Option Time
  auto_renew_status : Int
  grace_period_expires_date : Option Time
  new_expires_date : Time
deriving Repr, DecidableEq

/-- Result of a handler: the final database, or the error raised plus
the database at the point of failure (writes before the error persist;
the Rust code uses no transaction). -/
abbrev ProcResult := Except (AppError × Db) Db

/-- `process_new_subscription` (src/webhooks/apple.rs, SUBSCRIBED). -/
def process_new_subscription (payload : AppleNotificationPayload)
    (transaction_id original_transaction_id apple_product_id : String)
    (app_account_token : Option String) (expires_date : Option Time)
    (now : Time) (db : Db) : ProcResult :=
  match payload.data.signed_transaction_info with
  | none => .ok db
  | some _ =>
    let purchase_date := now
    match Product.find_by_store_product_id "apple" apple_product_id db with
    | .error e => .error (e, db)
    | .ok none => .error (.NotFound ("Product not found: " ++ apple_product_id), db)
    | .ok (some product) =>
      match app_account_token with
      | none => .error (.BadRequest ("Missing app_account_token"), db)
      | some token =>
        let found :=
          match User.find_by_app_user_id token db with
          | some user => (user.id, db)
          | none =>
            let p := db.genId
            (p.1, p.2.insertUser
              { id := p.1, app_user_id := token, email := none,
                created_at := now, updated_at := now })
        let user_id := found.1
        let db1 := found.2
        let q := db1.genId
        let subscription : Subscription :=
          { id := q.1, user_id := user_id, product_id := product.id,
            original_transaction_id := some original_transaction_id,
            store_transaction_id := some transaction_id,
            store := "apple", purchase_date := purchase_date,
            expires_date := expires_date, cancellation_date := none,
            renewal_grace_period_expires_date := none,
            status := SubscriptionStatus.Active.toStr,
            auto_renew_status := some true, price_paid := none,
            currency := none, is_trial := false, is_intro_offer := false,
            created_at := now, updated_at := now }
        let db2 := q.2.insertSubscription subscription
        let entitlement_ids := product.get_entitlements db2
        .ok (grantEntitlements user_id subscription.id purchase_date expires_date now
          entitlement_ids db2)

/-- `process_subscription_renewal` (src/webhooks/apple.rs, DID_RENEW). -/
def process_subscription_renewal (payload : AppleNotificationPayload)
    (transaction_id original_transaction_id : String)
    (expires_date : Option Time) (now : Time) (db : Db) : ProcResult :=
  match payload.data.signed_transaction_info with
  | none => .ok db
  | some _ =>
    match Subscription.find_by_store_transaction "apple" original_transaction_id db with
    | none => .error (.NotFound ("Subscription not found: " ++ original_transaction_id), db)
    | some subscription =>
      let sub' := { subscription with
        store_transaction_id := some transaction_id,
        expires_date := expires_date,
        status := SubscriptionStatus.Active.toStr,
        updated_at := now }
      let db1 := db.writeSubscription sub'
      .ok (db1.cascadeExpiry subscription.user_id subscription.id now expires_date)

/-- `process_subscription_expiration` (src/webhooks/apple.rs, EXPIRED). -/
def process_subscription_expiration (payload : AppleNotificationPayload)
    (original_transaction_id : String) (now : Time) (db : Db) : ProcResult :=
  match payload.data.signed_transaction_info with
  | none => .ok db
  | some _ =>
    match Subscription.find_by_store_transaction "apple" original_transaction_id db with
    | none => .error (.NotFound ("Subscription not found: " ++ original_transaction_id), db)
    | some subscription =>
      let sub' := { subscription with
        status := SubscriptionStatus.Expired.toStr, updated_at := now }
      let db1 := db.writeSubscription sub'
      .ok (db1.cascadeExpiry subscription.user_id subscription.id now (some now))

/-- `process_renewal_status_change` (src/webhooks/apple.rs,
DID_CHANGE_RENEWAL_STATUS); guarded on `signedRenewalInfo`. -/
def process_renewal_status_change (payload : AppleNotificationPayload)
    (original_transaction_id : String) (auto_renew_status : Int)
    (now : Time) (db : Db) : ProcResult :=
  match payload.data.signed_renewal_info with
  | none => .ok db
  | some _ =>
    match Subscription.find_by_store_transaction "apple" original_transaction_id db with
    | none => .error (.NotFound ("Subscription not found: " ++ original_transaction_id), db)
    | some subscription =>
      let sub' := { subscription with
        auto_renew_status := some (auto_renew_status == 1), updated_at := now }
      .ok (db.writeSubscription sub')

/-- `process_renewal_change` (src/webhooks/apple.rs,
DID_CHANGE_RENEWAL_PREF) — a no-op stub. -/
def process_renewal_change (_payload : AppleNotificationPayload) (db : Db) : ProcResult :=
  .ok db

/-- `process_renewal_failure` (src/webhooks/apple.rs, DID_FAIL_TO_RENEW). -/
def process_renewal_failure (payload : AppleNotificationPayload)
    (original_transaction_id : String) (grace_period_expires_date : Option Time)
    (now : Time) (db : Db) : ProcResult :=
  match payload.data.signed_transaction_info with
  | none => .ok db
  | some _ =>
    match Subscription.find_by_store_transaction "apple" original_transaction_id db with
    | none => .error (.NotFound ("Subscription not found: " ++ original_transaction_id), db)
    | some subscription =>
      let sub' := { subscription with
        status := SubscriptionStatus.GracePeriod.toStr,
        renewal_grace_period_expires_date := grace_period_expires_date,
        updated_at := now }
      .ok (db.writeSubscription sub')

/-- `process_grace_period_expiration` (src/webhooks/apple.rs,
GRACE_PERIOD_EXPIRED). -/
def process_grace_period_expiration (payload : AppleNotificationPayload)
    (original_transaction_id : String) (now : Time) (db : Db) : ProcResult :=
  match payload.data.signed_transaction_info with
  | none => .ok db
  | some _ =>
    match Subscription.find_by_store_transaction "apple" original_transaction_id db with
    | none => .error (.NotFound ("Subscription not found: " ++ original_transaction_id), db)
    | some subscription =>
      let sub' := { subscription with
        status := SubscriptionStatus.Expired.toStr, updated_at := now }
      let db1 := db.writeSubscription sub'
      .ok (db1.cascadeExpiry subscription.user_id subscription.id now (some now))

/-- `process_offer_redemption` (src/webhooks/apple.rs, OFFER_REDEEMED)
— a no-op stub. -/
def process_offer_redemption (_payload : AppleNotificationPayload) (db : Db) : ProcResult :=
  .ok db

/-- `process_price_increase` (src/webhooks/apple.rs, PRICE_INCREASE)
— a no-op stub. -/
def process_price_increase (_payload : AppleNotificationPayload) (db : Db) : ProcResult :=
  .ok db

/-- `process_refund` (src/webhooks/apple.rs, REFUND): status Refunded,
then `revoke` (= set expires_at to now) on each active linked
entitlement. -/
def process_refund (payload : AppleNotificationPayload)
    (_transaction_id original_transaction_id : String) (now : Time) (db : Db) : ProcResult :=
  match payload.data.signed_transaction_info with
  | none => .ok db
  | some _ =>
    match Subscription.find_by_store_transaction "apple" original_transaction_id db with
    | none => .error (.NotFound ("Subscription not found: " ++ original_transaction_id), db)
    | some subscription =>
      let sub' := { subscription with
        status := SubscriptionStatus.Refunded.toStr, updated_at := now }
      let db1 := db.writeSubscription sub'
      .ok (db1.cascadeExpiry subscription.user_id subscription.id now (some now))

/-- `process_refund_declined` (src/webhooks/apple.rs, REFUND_DECLINED)
— a no-op stub. -/
def process_refund_declined (_payload : AppleNotificationPayload) (db : Db) : ProcResult :=
  .ok db

/-- `process_renewal_extension` (src/webhooks/apple.rs,
RENEWAL_EXTENDED).  The source unwraps the mocked
`Some(new_expires_date)`, so the parameter is the unwrapped time. -/
def process_renewal_extension (payload : AppleNotificationPayload)
    (original_transaction_id : String) (new_expires_date : Time)
    (now : Time) (db : Db) : ProcResult :=
  match payload.data.signed_transaction_info with
  | none => .ok db
  | some _ =>
    match Subscription.find_by_store_transaction "apple" original_transaction_id db with
    | none => .error (.NotFound ("Subscription not found: " ++ original_transaction_id), db)
    | some subscription =>
      let sub' := { subscription with
        expires_date := some new_expires_date, updated_at := now }
      let db1 := db.writeSubscription sub'
      .ok (db1.cascadeExpiry subscription.user_id subscription.id now (some new_expires_date))

/-- `process_subscription_revocation` (src/webhooks/apple.rs, REVOKE):
`Subscription::cancel` (status cancelled, cancellation_date, auto-renew
off) followed by force-expiring each active linked entitlement. -/
def process_subscription_revocation (payload : AppleNotificationPayload)
    (original_transaction_id : String) (now : Time) (db : Db) : ProcResult :=
  match payload.data.signed_transaction_info with
  | none => .ok db
  | some _ =>
    match Subscription.find_by_store_transaction "apple" original_transaction_id db with
    | none => .error (.NotFound ("Subscription not found: " ++ original_transaction_id), db)
    | some subscription =>
      let sub' := { subscription with
        cancellation_date := some now,
        status := SubscriptionStatus.Cancelled.toStr,
        auto_renew_status := some false,
        updated_at := now }
      let db1 := db.writeSubscription sub'
      .ok (db1.cascadeExpiry subscription.user_id subscription.id now (some now))

/-- The dispatch on `notificationType` inside `handle_apple_webhook`
(src/webhooks/apple.rs); unknown types raise `BadRequest`. -/
def apple_route (payload : AppleNotificationPayload) (m : AppleMockDecoded)
    (now : Time) (db : Db) : ProcResult :=
  match payload.notification_type with
  | "CONSUMPTION_REQUEST" => .ok db
  | "DID_CHANGE_RENEWAL_PREF" => process_renewal_change payload db
  | "DID_CHANGE_RENEWAL_STATUS" =>
    process_renewal_status_change payload m.original_transaction_id m.auto_renew_status now db
  | "DID_FAIL_TO_RENEW" =>
    process_renewal_failure payload m.original_transaction_id m.grace_period_expires_date now db
  | "DID_RENEW" =>
    process_subscription_renewal payload m.transaction_id m.original_transaction_id
      m.expires_date now db
  | "EXPIRED" => process_subscription_expiration payload m.original_transaction_id now db
  | "GRACE_PERIOD_EXPIRED" =>
    process_grace_period_expiration payload m.original_transaction_id now db
  | "OFFER_REDEEMED" => process_offer_redemption payload db
  | "PRICE_INCREASE" => process_price_increase payload db
  | "REFUND" =>
    process_refund payload m.transaction_id m.original_transaction_id now db
  | "REFUND_DECLINED" => process_refund_declined payload db
  | "RENEWAL_EXTENDED" =>
    process_renewal_extension payload m.original_transaction_id m.new_expires_date now db
  | "REVOKE" => process_subscription_revocation payload m.original_transaction_id now db
  | "SUBSCRIBED" =>
    process_new_subscription payload m.transaction_id m.original_transaction_id
      m.product_id m.app_account_token m.expires_date now db
  | _ => .error (.BadRequest ("Unknown notification type: " ++ payload.notification_type), db)

/-- `handle_apple_webhook` (src/webhooks/apple.rs): the dispatch above,
then on success HTTP 200 with the acknowledgement message. -/
def handle_apple_webhook (payload : AppleNotificationPayload) (m : AppleMockDecoded)
    (now : Time) (db : Db) : Except (AppError × Db) (String × Db) :=
  match apple_route payload m now db with
  | .error e => .error e
  | .ok db' => .ok ("Webhook processed successfully", db')

/-- HTTP status of a webhook call: 200 on success, the error's status
otherwise (src/error.rs `IntoResponse`). -/
def httpStatus {α : Type} : Except (AppError × Db) α → Nat
  | .ok _ => 200
  | .error p => p.1.statusCode

/-- `GoogleSubscriptionNotification` (src/webhooks/google.rs). -/
structure GoogleSubscription where
  version : String
  notification_type : Int
  purchase_token : String
  subscription_id : String
deriving Repr, DecidableEq

/-- `GoogleOneTimeProductNotification` (src/webhooks/google.rs). -/
structure GoogleOneTimeProduct where
  version : String
  notification_type : Int
  purchase_token : String
  sku : String
deriving Repr, DecidableEq

/-- `GoogleNotificationPayload` (src/webhooks/google.rs); the
`testNotification` field carries only a version string. -/
structure GoogleNotificationPayload where
  version : String
  package_name : String
  event_time_millis : Time
  subscription : Option GoogleSubscription
  one_time_product : Option GoogleOneTimeProduct
  test : Option String
deriving Repr, DecidableEq

/-- Values the Google handlers bind as hard-coded mocks where a real
implementation would query the Google Play Developer API; taken as
parameters (see the module comment). -/
structure GoogleMockDecoded where
  order_id : String
  one_time_order_id : String
  expiry_time : Time
  new_expiry_time : Time
  grace_period_end : Time
  auto_renewing : Bool
deriving Repr, DecidableEq

/-- `process_subscription_purchased` (src/webhooks/google.rs, type 4).
The user lookup/creation happens before the product lookup, so a
missing product leaves a created user behind. -/
def process_subscription_purchased (n : GoogleSubscription)
    (order_id : String) (expiry_time : Time) (auto_renewing : Bool)
    (now : Time) (db : Db) : ProcResult :=
  let purchase_token := n.purchase_token
  let google_product_id := n.subscription_id
  let purchase_time := now
  let found :=
    match User.find_by_app_user_id purchase_token db with
    | some user => (user.id, db)
    | none =>
      let p := db.genId
      (p.1, p.2.insertUser
        { id := p.1, app_user_id := purchase_token, email := none,
          created_at := now, updated_at := now })
  let user_id := found.1
  let db1 := found.2
  match Product.find_by_store_product_id "google" google_product_id db1 with
  | .error e => .error (e, db1)
  | .ok none => .error (.NotFound ("Product not found: " ++ google_product_id), db1)
  | .ok (some product) =>
    let q := db1.genId
    let subscription : Subscription :=
      { id := q.1, user_id := user_id, product_id := product.id,
        original_transaction_id := some purchase_token,
        store_transaction_id := some order_id,
        store := "google", purchase_date := purchase_time,
        expires_date := some expiry_time, cancellation_date := none,
        renewal_grace_period_expires_date := none,
        status := SubscriptionStatus.Active.toStr,
        auto_renew_status := some auto_renewing, price_paid := none,
        currency := none, is_trial := false, is_intro_offer := false,
        created_at := now, updated_at := now }
    let db2 := q.2.insertSubscription subscription
    let entitlement_ids := product.get_entitlements db2
    .ok (grantEntitlements user_id subscription.id purchase_time (some expiry_time) now
      entitlement_ids db2)

/-- `process_subscription_renewed` (src/webhooks/google.rs, type 2):
sets expiry and status Active (transaction id and grace-period field
untouched), then extends active linked entitlements. -/
def process_subscription_renewed (n : GoogleSubscription)
    (new_expiry_time : Time) (now : Time) (db : Db) : ProcResult :=
  match Subscription.find_by_store_transaction "google" n.purchase_token db with
  | none => .error (.NotFound ("Subscription not found for token: " ++ n.purchase_token), db)
  | some subscription =>
    let sub' := { subscription with
      expires_date := some new_expiry_time,
      status := SubscriptionStatus.Active.toStr,
      updated_at := now }
    let db1 := db.writeSubscription sub'
    .ok (db1.cascadeExpiry subscription.user_id subscription.id now (some new_expiry_time))

/-- `process_subscription_canceled` (src/webhooks/google.rs, type 3):
`Subscription::cancel` only; entitlements are left to expire
naturally. -/
def process_subscription_canceled (n : GoogleSubscription)
    (now : Time) (db : Db) : ProcResult :=
  match Subscription.find_by_store_transaction "google" n.purchase_token db with
  | none => .error (.NotFound ("Subscription not found for token: " ++ n.purchase_token), db)
  | some subscription =>
    let sub' := { subscription with
      cancellation_date := some now,
      status := SubscriptionStatus.Cancelled.toStr,
      auto_renew_status := some false,
      updated_at := now }
    .ok (db.writeSubscription sub')

/-- `process_subscription_expired` (src/webhooks/google.rs, type 13). -/
def process_subscription_expired (n : GoogleSubscription)
    (now : Time) (db : Db) : ProcResult :=
  match Subscription.find_by_store_transaction "google" n.purchase_token db with
  | none => .error (.NotFound ("Subscription not found for token: " ++ n.purchase_token), db)
  | some subscription =>
    let sub' := { subscription with
      status := SubscriptionStatus.Expired.toStr, updated_at := now }
    let db1 := db.writeSubscription sub'
    .ok (db1.cascadeExpiry subscription.user_id subscription.id now (some now))

/-- `process_subscription_in_grace_period` (src/webhooks/google.rs,
type 6): status GracePeriod plus grace-period end; no entitlement
writes. -/
def process_subscription_in_grace_period (n : GoogleSubscription)
    (grace_period_end : Time) (now : Time) (db : Db) : ProcResult :=
  match Subscription.find_by_store_transaction "google" n.purchase_token db with
  | none => .error (.NotFound ("Subscription not found for token: " ++ n.purchase_token), db)
  | some subscription =>
    let sub' := { subscription with
      status := SubscriptionStatus.GracePeriod.toStr,
      renewal_grace_period_expires_date := some grace_period_end,
      updated_at := now }
    .ok (db.writeSubscription sub')

/-- `process_subscription_recovered` (src/webhooks/google.rs, type 1):
like a renewal but also clears the grace-period field. -/
def process_subscription_recovered (n : GoogleSubscription)
    (new_expiry_time : Time) (now : Time) (db : Db) : ProcResult :=
  match Subscription.find_by_store_transaction "google" n.purchase_token db with
  | none => .error (.NotFound ("Subscription not found for token: " ++ n.purchase_token), db)
  | some subscription =>
    let sub' := { subscription with
      expires_date := some new_expiry_time,
      status := SubscriptionStatus.Active.toStr,
      renewal_grace_period_expires_date := none,
      updated_at := now }
    let db1 := db.writeSubscription sub'
    .ok (db1.cascadeExpiry subscription.user_id subscription.id now (some new_expiry_time))

/-- `process_subscription_on_hold` (src/webhooks/google.rs, type 5):
status Paused and force-expiry of active linked entitlements. -/
def process_subscription_on_hold (n : GoogleSubscription)
    (now : Time) (db : Db) : ProcResult :=
  match Subscription.find_by_store_transaction "google" n.purchase_token db with
  | none => .error (.NotFound ("Subscription not found for token: " ++ n.purchase_token), db)
  | some subscription =>
    let sub' := { subscription with
      status := SubscriptionStatus.Paused.toStr, updated_at := now }
    let db1 := db.writeSubscription sub'
    .ok (db1.cascadeExpiry subscription.user_id subscription.id now (some now))

/-- `process_subscription_restarted` (src/webhooks/google.rs, type 7):
status Active with new expiry, then fresh entitlement rows per
product-entitlement mapping dated from now.  The subscription update is
written before the product lookup, so a missing product leaves the
updated subscription behind. -/
def process_subscription_restarted (n : GoogleSubscription)
    (new_expiry_time : Time) (now : Time) (db : Db) : ProcResult :=
  match Subscription.find_by_store_transaction "google" n.purchase_token db with
  | none => .error (.NotFound ("Subscription not found for token: " ++ n.purchase_token), db)
  | some subscription =>
    let sub' := { subscription with
      expires_date := some new_expiry_time,
      status := SubscriptionStatus.Active.toStr,
      updated_at := now }
    let db1 := db.writeSubscription sub'
    match Product.find_by_id subscription.product_id db1 with
    | none => .error (.NotFound ("Product not found: " ++ subscription.product_id), db1)
    | some product =>
      let entitlement_ids := product.get_entitlements db1
      .ok (grantEntitlements subscription.user_id subscription.id now (some new_expiry_time)
        now entitlement_ids db1)

/-- `process_subscription_revoked` (src/webhooks/google.rs, type 12):
status Refunded and immediate `revoke` of active linked entitlements. -/
def process_subscription_revoked (n : GoogleSubscription)
    (now : Time) (db : Db) : ProcResult :=
  match Subscription.find_by_store_transaction "google" n.purchase_token db with
  | none => .error (.NotFound ("Subscription not found for token: " ++ n.purchase_token), db)
  | some subscription =>
    let sub' := { subscription with
      status := SubscriptionStatus.Refunded.toStr, updated_at := now }
    let db1 := db.writeSubscription sub'
    .ok (db1.cascadeExpiry subscription.user_id subscription.id now (some now))

/-- `process_one_time_purchased` (src/webhooks/google.rs, one-time
type 1): non-expiring subscription row plus lifetime entitlements. -/
def process_one_time_purchased (n : GoogleOneTimeProduct)
    (order_id : String) (now : Time) (db : Db) : ProcResult :=
  let purchase_token := n.purchase_token
  let google_product_id := n.sku
  let purchase_time := now
  let found :=
    match User.find_by_app_user_id purchase_token db with
    | some user => (user.id, db)
    | none =>
      let p := db.genId
      (p.1, p.2.insertUser
        { id := p.1, app_user_id := purchase_token, email := none,
          created_at := now, updated_at := now })
  let user_id := found.1
  let db1 := found.2
  match Product.find_by_store_product_id "google" google_product_id db1 with
  | .error e => .error (e, db1)
  | .ok none => .error (.NotFound ("Product not found: " ++ google_product_id), db1)
  | .ok (some product) =>
    let q := db1.genId
    let subscription : Subscription :=
      { id := q.1, user_id := user_id, product_id := product.id,
        original_transaction_id := some purchase_token,
        store_transaction_id := some order_id,
        store := "google", purchase_date := purchase_time,
        expires_date := none, cancellation_date := none,
        renewal_grace_period_expires_date := none,
        status := SubscriptionStatus.Active.toStr,
        auto_renew_status := some false, price_paid := none,
        currency := none, is_trial := false, is_intro_offer := false,
        created_at := now, updated_at := now }
    let db2 := q.2.insertSubscription subscription
    let entitlement_ids := product.get_entitlements db2
    .ok (grantEntitlements user_id subscription.id purchase_time none now
      entitlement_ids db2)

/-- `process_one_time_canceled` (src/webhooks/google.rs, one-time
type 2): treated as a refund — status Refunded, active linked
entitlements revoked. -/
def process_one_time_canceled (n : GoogleOneTimeProduct)
    (now : Time) (db : Db) : ProcResult :=
  match Subscription.find_by_store_transaction "google" n.purchase_token db with
  | none => .error (.NotFound ("Purchase not found for token: " ++ n.purchase_token), db)
  | some subscription =>
    let sub' := { subscription with
      status := SubscriptionStatus.Refunded.toStr, updated_at := now }
    let db1 := db.writeSubscription sub'
    .ok (db1.cascadeExpiry subscription.user_id subscription.id now (some now))

/-- `process_subscription_notification` (src/webhooks/google.rs):
dispatch on the integer notification type; types outside the handled
set fall into a do-nothing default branch that returns success. -/
def process_subscription_notice (_package_name : String)
    (n : GoogleSubscription) (m : GoogleMockDecoded)
    (now : Time) (db : Db) : ProcResult :=
  match n.notification_type with
  | 1 => process_subscription_recovered n m.new_expiry_time now db
  | 2 => process_subscription_renewed n m.new_expiry_time now db
  | 3 => process_subscription_canceled n now db
  | 4 => process_subscription_purchased n m.order_id m.expiry_time m.auto_renewing now db
  | 5 => process_subscription_on_hold n now db
  | 6 => process_subscription_in_grace_period n m.grace_period_end now db
  | 7 => process_subscription_restarted n m.new_expiry_time now db
  | 12 => process_subscription_revoked n now db
  | 13 => process_subscription_expired n now db
  | _ => .ok db

/-- `process_one_time_notification` (src/webhooks/google.rs): unknown
one-time types raise `BadRequest`. -/
def process_one_time_notice (_package_name : String)
    (n : GoogleOneTimeProduct) (m : GoogleMockDecoded)
    (now : Time) (db : Db) : ProcResult :=
  match n.notification_type with
  | 1 => process_one_time_purchased n m.one_time_order_id now db
  | 2 => process_one_time_canceled n now db
  | _ => .error (.BadRequest ("Unknown one-time notification type: " ++
      toString n.notification_type), db)

/-- `handle_google_webhook` (src/webhooks/google.rs): test
notifications short-circuit with success; otherwise the subscription
notification, then the one-time notification, are processed in
sequence. -/
def handle_google_webhook (payload : GoogleNotificationPayload) (m : GoogleMockDecoded)
    (now : Time) (db : Db) : Except (AppError × Db) (String × Db) :=
  match payload.test with
  | some _ => .ok ("Test notification received", db)
  | none =>
    let afterSub : ProcResult :=
      match payload.subscription with
      | some n => process_subscription_notice payload.package_name n m now db
      | none => .ok db
    match afterSub with
    | .error e => .error e
    | .ok db1 =>
      let afterOneTime : ProcResult :=
        match payload.one_time_product with
        | some n => process_one_time_notice payload.package_name n m now db1
        | none => .ok db1
      match afterOneTime with
      | .error e => .error e
      | .ok db2 => .ok ("Webhook processed successfully", db2)

/-! Concrete fixtures used by counterexamples and witnesses. -/

/-- An Apple payload with the given notification type and signed-info
fields. -/
def applePayload (nt : String) (sti sri : Option String) : AppleNotificationPayload :=
  { notification_type := nt, sub_type := none, notification_uuid := "n-1",
    version := "2.0",
    data := { app_apple_id := none, bundle_id := none, bundle_version := none,
              environment := none, signed_renewal_info := sri,
              signed_transaction_info := sti },
    signed_date := 0 }

/-- A catalog product mapped to one entitlement, for both stores. -/
def sampleProduct : Product :=
  { id := "p1", name := "Pro", description := none,
    apple_product_id := some "com.example.pro",
    google_product_id := some "pro_monthly", type_ := "subscription",
    price_usd := none, duration_days := some 30, created_at := 0, updated_at := 0 }

/-- A subscription row fixture; status, expiry, and grace field vary
per scenario. -/
def sampleSub (store : String) (otid : String) (status : String)
    (expires grace : Option Time) : Subscription :=
  { id := "s1", user_id := "u1", product_id := "p1",
    original_transaction_id := some otid, store_transaction_id := some otid,
    store := store, purchase_date := 0, expires_date := expires,
    cancellation_date := none, renewal_grace_period_expires_date := grace,
    status := status, auto_renew_status := some true, price_paid := none,
    currency := none, is_trial := false, is_intro_offer := false,
    created_at := 0, updated_at := 0 }

/-- An entitlement row fixture linked to subscription `s1`. -/
def sampleEnt (id : String) (starts : Time) (expires : Option Time) : UserEntitlement :=
  { id := id, user_id := "u1", entitlement_id := "ent-pro",
    subscription_id := some "s1", starts_at := starts, expires_at := expires,
    created_at := 0, updated_at := 0 }

/-- The owning user fixture. -/
def sampleUser : User :=
  { id := "u1", app_user_id := "tok", email := none, created_at := 0, updated_at := 0 }

/-- Database with an Active apple subscription expiring at 100 and one
linked active entitlement expiring at 100. -/
def dbActive : Db :=
  { users := [sampleUser], products := [sampleProduct],
    product_entitlements := [("p1", "ent-pro")],
    subscriptions := [sampleSub "apple" "t1" "active" (some 100) none],
    user_entitlements := [sampleEnt "e1" 0 (some 100)], next_id := 0 }

/-- Like `dbActive` but with the grace-period field set to 90. -/
def dbGrace : Db :=
  { dbActive with
    subscriptions := [sampleSub "apple" "t1" "grace_period" (some 100) (some 90)] }

/-- Database with an Expired apple subscription whose entitlement was
force-expired at 40. -/
def dbExpired : Db :=
  { dbActive with
    subscriptions := [sampleSub "apple" "t1" "expired" (some 40) none],
    user_entitlements := [sampleEnt "e1" 0 (some 40)] }

/-- Database with a Refunded apple subscription (state transition at
time 100) and its entitlement revoked at 100. -/
def dbRefunded : Db :=
  { dbActive with
    subscriptions := [{ sampleSub "apple" "t1" "refunded" (some 100) none with updated_at := 100 }],
    user_entitlements := [{ sampleEnt "e1" 0 (some 100) with updated_at := 100 }] }

/-- Database with one active and one already-expired entitlement, both
linked to the active apple subscription. -/
def dbMixedEnts : Db :=
  { dbActive with
    user_entitlements := [sampleEnt "e1" 0 (some 100), sampleEnt "e2" 0 (some 40)] }

/-- Database with the catalog and user but no subscriptions yet. -/
def dbEmpty : Db :=
  { dbActive with subscriptions := [], user_entitlements := [] }

/-- Database with an Expired google subscription whose entitlement was
force-expired at 40. -/
def dbExpiredGoogle : Db :=
  { dbActive with
    subscriptions := [sampleSub "google" "gtok" "expired" (some 40) none],
    user_entitlements := [{ sampleEnt "e1" 0 (some 40) with subscription_id := some "s1" }] }

/-- A Google subscription notification fixture. -/
def googleNotice (t : Int) : GoogleSubscription :=
  { version := "1.0", notification_type := t, purchase_token := "gtok",
    subscription_id := "pro_monthly" }

/-- Mock-decoded Google values used by the fixtures. -/
def googleMock : GoogleMockDecoded :=
  { order_id := "GPA.1", one_time_order_id := "GPA.2", expiry_time := 80,
    new_expiry_time := 80, grace_period_end := 66, auto_renewing := true }

/-- Mock-decoded Apple values used by the fixtures. -/
def appleMock : AppleMockDecoded :=
  { transaction_id := "tx1", original_transaction_id := "t1",
    product_id := "com.example.pro", app_account_token := some "tok",
    expires_date := some 100, auto_renew_status := 1,
    grace_period_expires_date := some 66, new_expires_date := 150 }

/-- Final database of a handler run, whether it succeeded or failed. -/
def resultDb : ProcResult → Db
  | .ok d => d
  | .error p => p.2

/-- Final database of a webhook endpoint run. -/
def respDb : Except (AppError × Db) (String × Db) → Db
  | .ok p => p.2
  | .error p => p.2

/-- Discipline of the entitlement cascade over one processing step: a
row that is inactive at processing time is left exactly in place, and a
row that changed was active at processing time and linked to a
subscription. -/
def UeDiscipline (now : Time) (l l' : List UserEntitlement) : Prop :=
  ∀ (i : Nat) (e : UserEntitlement), l[i]? = some e →
    (e.isActiveAt now = false → l'[i]? = some e) ∧
    (∀ e', l'[i]? = some e' → e' ≠ e →
      e.isActiveAt now = true ∧ e.subscription_id.isSome = true)

/-- A handler obeys the cascade discipline when every successful run
relates pre- and post-state entitlement tables by `UeDiscipline`. -/
def CascadeDiscipline (f : Db → ProcResult) (now : Time) : Prop :=
  ∀ db db', f db = .ok db' → UeDiscipline now db.user_entitlements db'.user_entitlements

/-! Helper lemmas about the storage combinators. -/

theorem cascadeRow_inactive (u s : String) (now : Time) (ne : Option Time)
    (e : UserEntitlement) (h : e.isActiveAt now = false) :
    cascadeRow u s now ne e = e := by
  unfold cascadeRow
  simp [h]

theorem cascadeRow_changed (u s : String) (now : Time) (ne : Option Time)
    (e : UserEntitlement) (h : cascadeRow u s now ne e ≠ e) :
    e.user_id = u ∧ e.isActiveAt now = true ∧ e.subscription_id = some s := by
  unfold cascadeRow at h
  by_cases hc : (e.user_id == u && e.isActiveAt now && e.subscription_id == some s) = true
  · simpa [Bool.and_eq_true, beq_iff_eq, and_assoc] using hc
  · exact absurd (by simp [hc]) h

theorem cascadeRow_active_linked (u s : String) (now : Time) (ne : Option Time)
    (e : UserEntitlement) (hu : e.user_id = u) (hs : e.subscription_id = some s)
    (ha : e.isActiveAt now = true) :
    cascadeRow u s now ne e = { e with expires_at := ne, updated_at := now } := by
  unfold cascadeRow
  simp [hu, hs, ha]

theorem getElem?_map_cascade (u s : String) (now : Time) (ne : Option Time)
    (l : List UserEntitlement) (i : Nat) (e : UserEntitlement) (h : l[i]? = some e) :
    (l.map (cascadeRow u s now ne))[i]? = some (cascadeRow u s now ne e) := by
  rw [List.getElem?_map, h]
  rfl

theorem ueDiscipline_map (now : Time) (u s : String) (ne : Option Time)
    (l : List UserEntitlement) :
    UeDiscipline now l (l.map (cascadeRow u s now ne)) := by
  unfold UeDiscipline
  intro i e h
  have hmap := getElem?_map_cascade u s now ne l i e h
  refine ⟨fun hin => by rw [hmap, cascadeRow_inactive u s now ne e hin], ?_⟩
  intro e' he' hne
  have he2 : e' = cascadeRow u s now ne e := by
    rw [hmap] at he'
    exact (Option.some.inj he').symm
  have hch : cascadeRow u s now ne e ≠ e := he2 ▸ hne
  have hcc := cascadeRow_changed u s now ne e hch
  exact ⟨hcc.2.1, by rw [hcc.2.2]; rfl⟩

theorem ueDiscipline_of_keep (now : Time) (l l' : List UserEntitlement)
    (h : ∀ (i : Nat) (e : UserEntitlement), l[i]? = some e → l'[i]? = some e) :
    UeDiscipline now l l' := by
  unfold UeDiscipline
  intro i e he
  refine ⟨fun _ => h i e he, fun e' he' hne => absurd ?_ hne⟩
  have hk := h i e he
  rw [hk] at he'
  exact (Option.some.inj he').symm

theorem ueDiscipline_refl (now : Time) (l : List UserEntitlement) :
    UeDiscipline now l l :=
  ueDiscipline_of_keep now l l (fun _ _ h => h)

theorem getElem?_append_left {α : Type} (l l' : List α) (i : Nat) (a : α)
    (h : l[i]? = some a) : (l ++ l')[i]? = some a := by
  have hlt : i < l.length := (List.getElem?_eq_some.mp h).1
  rw [List.getElem?_append]
  simp [hlt, h]

theorem grant_ue_prefix (u s : String) (st : Time) (ex : Option Time) (now : Time)
    (ids : List String) (db : Db) (i : Nat) (e : UserEntitlement)
    (h : db.user_entitlements[i]? = some e) :
    (grantEntitlements u s st ex now ids db).user_entitlements[i]? = some e := by
  induction ids generalizing db with
  | nil => simpa [grantEntitlements] using h
  | cons eid rest ih =>
    show (grantEntitlements u s st ex now rest _).user_entitlements[i]? = some e
    apply ih
    exact getElem?_append_left _ _ i e h

theorem grant_subscriptions (u s : String) (st : Time) (ex : Option Time) (now : Time)
    (ids : List String) (db : Db) :
    (grantEntitlements u s st ex now ids db).subscriptions = db.subscriptions := by
  induction ids generalizing db with
  | nil => rfl
  | cons eid rest ih => exact ih _

theorem grant_ue_length (u s : String) (st : Time) (ex : Option Time) (now : Time)
    (ids : List String) (db : Db) :
    (grantEntitlements u s st ex now ids db).user_entitlements.length =
      db.user_entitlements.length + ids.length := by
  induction ids generalizing db with
  | nil => rfl
  | cons eid rest ih =>
    show (grantEntitlements u s st ex now rest _).user_entitlements.length = _
    rw [ih]
    simp [Db.insertUserEntitlement, Db.genId]
    omega

theorem grant_ue_mem (u s : String) (st : Time) (ex : Option Time) (now : Time)
    (ids : List String) (db : Db) (e' : UserEntitlement)
    (h : e' ∈ (grantEntitlements u s st ex now ids db).user_entitlements) :
    e' ∈ db.user_entitlements ∨
      (e'.user_id = u ∧ e'.subscription_id = some s ∧ e'.starts_at = st ∧
        e'.expires_at = ex) := by
  induction ids generalizing db with
  | nil => exact Or.inl h
  | cons eid rest ih =>
    rcases ih _ h with hmem | hnew
    · simp only [Db.insertUserEntitlement, Db.genId, List.mem_append] at hmem
      rcases hmem with hold | hone
      · exact Or.inl hold
      · simp only [List.mem_singleton] at hone
        subst hone
        exact Or.inr ⟨rfl, rfl, rfl, rfl⟩
    · exact Or.inr hnew

theorem writeSubscription_ue (db : Db) (s : Subscription) :
    (db.writeSubscription s).user_entitlements = db.user_entitlements := rfl

theorem writeSubscription_mem (db : Db) (sub s' : Subscription)
    (hm : sub ∈ db.subscriptions) (hid : s'.id = sub.id) :
    s' ∈ (db.writeSubscription s').subscriptions := by
  have h1 : (fun r => if r.id == s'.id then s' else r) sub = s' := by
    simp [beq_iff_eq, hid.symm]
  have h2 := List.mem_map_of_mem (fun r => if r.id == s'.id then s' else r) hm
  rw [h1] at h2
  exact h2

theorem cascade_subscriptions (db : Db) (u s : String) (now : Time) (ne : Option Time) :
    (db.cascadeExpiry u s now ne).subscriptions = db.subscriptions := rfl

theorem cascade_ue (db : Db) (u s : String) (now : Time) (ne : Option Time) :
    (db.cascadeExpiry u s now ne).user_entitlements =
      db.user_entitlements.map (cascadeRow u s now ne) := rfl

theorem map_cascade_at_active (u s : String) (now : Time) (ne : Option Time)
    (l : List UserEntitlement) (i : Nat) (e : UserEntitlement)
    (he : l[i]? = some e) (hu : e.user_id = u) (hs : e.subscription_id = some s)
    (ha : e.isActiveAt now = true) :
    (l.map (cascadeRow u s now ne))[i]? =
      some { e with expires_at := ne, updated_at := now } := by
  rw [getElem?_map_cascade u s now ne l i e he,
    cascadeRow_active_linked u s now ne e hu hs ha]

/-! Claims. -/

/-- C1, counterexample.  The claim states that a Cancelled event —
Apple REVOKE included — leaves every linked entitlement's `expires_at`
unchanged.  On `dbActive` (one active apple subscription, one linked
entitlement expiring at 100), Apple REVOKE at time 50 rewrites the
entitlement's `expires_at` from 100 to 50. -/
theorem C1_counterexample :
    dbActive.user_entitlements.map UserEntitlement.expires_at = [some 100] ∧
    (resultDb (process_subscription_revocation (applePayload "REVOKE" (some "jwt") none)
        "t1" 50 dbActive)).user_entitlements.map UserEntitlement.expires_at = [some 50] :=
  ⟨rfl, rfl⟩

/-- C1, amended: a Google CANCELED (type 3) leaves every entitlement
row unchanged, but Apple REVOKE force-expires every active linked
entitlement (expires_at set to now) in addition to cancelling the
subscription; Refunded events (Apple REFUND, Google type 12 REVOKED)
set every active linked entitlement's `expires_at` to a time ≤ now. -/
theorem C1_amended_theorem (payload : AppleNotificationPayload) (gn : GoogleSubscription)
    (tid otid : String) (now : Time) (db db' : Db) (sub : Subscription) :
    (process_subscription_canceled gn now db = .ok db' →
      db'.user_entitlements = db.user_entitlements) ∧
    (process_subscription_revocation payload otid now db = .ok db' →
      payload.data.signed_transaction_info.isSome = true →
      Subscription.find_by_store_transaction "apple" otid db = some sub →
      ∀ (i : Nat) (e : UserEntitlement), db.user_entitlements[i]? = some e →
        e.user_id = sub.user_id → e.subscription_id = some sub.id →
        e.isActiveAt now = true →
        ∃ t, t ≤ now ∧ db'.user_entitlements[i]? =
          some { e with expires_at := some t, updated_at := now }) ∧
    (process_refund payload tid otid now db = .ok db' →
      payload.data.signed_transaction_info.isSome = true →
      Subscription.find_by_store_transaction "apple" otid db = some sub →
      ∀ (i : Nat) (e : UserEntitlement), db.user_entitlements[i]? = some e →
        e.user_id = sub.user_id → e.subscription_id = some sub.id →
        e.isActiveAt now = true →
        ∃ t, t ≤ now ∧ db'.user_entitlements[i]? =
          some { e with expires_at := some t, updated_at := now }) ∧
    (process_subscription_revoked gn now db = .ok db' →
      Subscription.find_by_store_transaction "google" gn.purchase_token db = some sub →
      ∀ (i : Nat) (e : UserEntitlement), db.user_entitlements[i]? = some e →
        e.user_id = sub.user_id → e.subscription_id = some sub.id →
        e.isActiveAt now = true →
        ∃ t, t ≤ now ∧ db'.user_entitlements[i]? =
          some { e with expires_at := some t, updated_at := now }) := by
  refine ⟨?_, ?_, ?_, ?_⟩
  · intro h
    cases hfind : Subscription.find_by_store_transaction "google" gn.purchase_token db with
    | none => simp [process_subscription_canceled, hfind] at h
    | some sub2 =>
      simp only [process_subscription_canceled, hfind, Except.ok.injEq] at h
      subst h
      exact writeSubscription_ue db _
  · intro h hsome hfind i e he hu hs ha
    cases hsti : payload.data.signed_transaction_info with
    | none => rw [hsti] at hsome; simp at hsome
    | some sig =>
      simp only [process_subscription_revocation, hsti, hfind, Except.ok.injEq] at h
      subst h
      refine ⟨now, le_refl now, ?_⟩
      rw [cascade_ue, writeSubscription_ue]
      exact map_cascade_at_active sub.user_id sub.id now (some now)
        db.user_entitlements i e he hu hs ha
  · intro h hsome hfind i e he hu hs ha
    cases hsti : payload.data.signed_transaction_info with
    | none => rw [hsti] at hsome; simp at hsome
    | some sig =>
      simp only [process_refund, hsti, hfind, Except.ok.injEq] at h
      subst h
      refine ⟨now, le_refl now, ?_⟩
      rw [cascade_ue, writeSubscription_ue]
      exact map_cascade_at_active sub.user_id sub.id now (some now)
        db.user_entitlements i e he hu hs ha
  · intro h hfind i e he hu hs ha
    simp only [process_subscription_revoked, hfind, Except.ok.injEq] at h
    subst h
    refine ⟨now, le_refl now, ?_⟩
    rw [cascade_ue, writeSubscription_ue]
    exact map_cascade_at_active sub.user_id sub.id now (some now)
      db.user_entitlements i e he hu hs ha

/-- C1, witness: the amended theorem applied to `dbActive` with Apple
REVOKE at time 50 — the linked entitlement row 0 ends with
`expires_at` 50 ≤ 50. -/
theorem C1_amended_witness :
    ∃ t, t ≤ (50 : Time) ∧
      (resultDb (process_subscription_revocation (applePayload "REVOKE" (some "jwt") none)
        "t1" 50 dbActive)).user_entitlements[0]? =
        some { sampleEnt "e1" 0 (some 100) with expires_at := some t, updated_at := 50 } :=
  (C1_amended_theorem (applePayload "REVOKE" (some "jwt") none) (googleNotice 3)
    "tx" "t1" 50 dbActive
    (resultDb (process_subscription_revocation (applePayload "REVOKE" (some "jwt") none)
      "t1" 50 dbActive))
    (sampleSub "apple" "t1" "active" (some 100) none)).2.1
    rfl rfl rfl 0 (sampleEnt "e1" 0 (some 100)) rfl rfl rfl rfl

/-- C2, counterexample.  The claim states that an event whose
occurred-at is older than the subscription's stored transition time is
discarded as stale; in particular a late Renewed must not overwrite
Refunded.  On `dbRefunded` (refund transition recorded at time 100), a
DID_RENEW whose payload `signedDate` is 50 still flips the status back
to "active" and extends the expiry. -/
theorem C2_counterexample :
    dbRefunded.subscriptions.map Subscription.status = ["refunded"] ∧
    dbRefunded.subscriptions.map Subscription.updated_at = [100] ∧
    (resultDb (process_subscription_renewal
        { applePayload "DID_RENEW" (some "jwt") none with signed_date := 50 }
        "t2" "t1" (some 150) 120 dbRefunded)).subscriptions.map Subscription.status =
      ["active"] ∧
    (resultDb (process_subscription_renewal
        { applePayload "DID_RENEW" (some "jwt") none with signed_date := 50 }
        "t2" "t1" (some 150) 120 dbRefunded)).subscriptions.map Subscription.expires_date =
      [some 150] :=
  ⟨rfl, rfl, rfl, rfl⟩

/-- C2, amended: the code performs no staleness check.  The outcome of
Apple renewal processing is independent of the payload's occurred-at
(`signedDate`), and a Renewed event — Apple DID_RENEW or Google type 2
— processed against a subscription currently in Refunded state sets its
status back to Active and overwrites its expiry with the event's value,
regardless of timestamps. -/
theorem C2_amended_theorem (payload : AppleNotificationPayload) (t : Time)
    (tid otid : String) (exp : Option Time) (now : Time) (db db' : Db)
    (sub : Subscription) (gn : GoogleSubscription) (net : Time) :
    (process_subscription_renewal { payload with signed_date := t } tid otid exp now db =
      process_subscription_renewal payload tid otid exp now db) ∧
    (process_subscription_renewal payload tid otid exp now db = .ok db' →
      payload.data.signed_transaction_info.isSome = true →
      Subscription.find_by_store_transaction "apple" otid db = some sub →
      sub.status = "refunded" →
      ∃ s', s' ∈ db'.subscriptions ∧ s'.id = sub.id ∧ s'.status = "active" ∧
        s'.expires_date = exp) ∧
    (process_subscription_renewed gn net now db = .ok db' →
      Subscription.find_by_store_transaction "google" gn.purchase_token db = some sub →
      sub.status = "refunded" →
      ∃ s', s' ∈ db'.subscriptions ∧ s'.id = sub.id ∧ s'.status = "active" ∧
        s'.expires_date = some net) := by
  refine ⟨rfl, ?_, ?_⟩
  · intro h hsome hfind _hstat
    cases hsti : payload.data.signed_transaction_info with
    | none => rw [hsti] at hsome; simp at hsome
    | some sig =>
      simp only [process_subscription_renewal, hsti, hfind, Except.ok.injEq] at h
      subst h
      refine ⟨{ sub with
                store_transaction_id := some tid, expires_date := exp,
                status := SubscriptionStatus.Active.toStr, updated_at := now },
        ?_, rfl, rfl, rfl⟩
      rw [cascade_subscriptions]
      exact writeSubscription_mem db sub _ (List.mem_of_find?_eq_some hfind) rfl
  · intro h hfind _hstat
    simp only [process_subscription_renewed, hfind, Except.ok.injEq] at h
    subst h
    refine ⟨{ sub with
              expires_date := some net,
              status := SubscriptionStatus.Active.toStr, updated_at := now },
      ?_, rfl, rfl, rfl⟩
    rw [cascade_subscriptions]
    exact writeSubscription_mem db sub _ (List.mem_of_find?_eq_some hfind) rfl

/-- C2, witness: the amended theorem applied to `dbRefunded` — the
Apple DID_RENEW at processing time 120 leaves the subscription Active
with expiry 150 even though the refund transition is recorded at 100. -/
theorem C2_amended_witness :
    ∃ s', s' ∈ (resultDb (process_subscription_renewal
        (applePayload "DID_RENEW" (some "jwt") none) "t2" "t1" (some 150) 120
        dbRefunded)).subscriptions ∧
      s'.id = ({ sampleSub "apple" "t1" "refunded" (some 100) none with
        updated_at := 100 } : Subscription).id ∧
      s'.status = "active" ∧ s'.expires_date = some 150 :=
  (C2_amended_theorem (applePayload "DID_RENEW" (some "jwt") none) 0 "t2" "t1"
    (some 150) 120 dbRefunded
    (resultDb (process_subscription_renewal (applePayload "DID_RENEW" (some "jwt") none)
      "t2" "t1" (some 150) 120 dbRefunded))
    { sampleSub "apple" "t1" "refunded" (some 100) none with updated_at := 100 }
    (googleNotice 2) 80).2.1 rfl rfl rfl rfl

/-- C3, counterexample.  The claim states that applying the same
Purchased event twice yields exactly one subscription row for the
(store, original_transaction_id) and one entitlement row per mapping.
Starting from `dbEmpty` (catalog with one mapping, existing user, no
subscriptions), applying the same Apple SUBSCRIBED event twice yields
two subscription rows for ("apple", "t1") and two entitlement rows. -/
theorem C3_counterexample :
    ((resultDb (process_new_subscription (applePayload "SUBSCRIBED" (some "jwt") none)
        "tx1" "t1" "com.example.pro" (some "tok") (some 100) 10
        (resultDb (process_new_subscription (applePayload "SUBSCRIBED" (some "jwt") none)
          "tx1" "t1" "com.example.pro" (some "tok") (some 100) 10
          dbEmpty)))).subscriptions.filter
      (fun s => s.store == "apple" && s.original_transaction_id == some "t1")).length = 2 ∧
    (resultDb (process_new_subscription (applePayload "SUBSCRIBED" (some "jwt") none)
        "tx1" "t1" "com.example.pro" (some "tok") (some 100) 10
        (resultDb (process_new_subscription (applePayload "SUBSCRIBED" (some "jwt") none)
          "tx1" "t1" "com.example.pro" (some "tok") (some 100) 10
          dbEmpty)))).user_entitlements.length = 2 ∧
    (dbEmpty.product_entitlements.filter (fun pe => pe.1 == "p1")).length = 1 :=
  ⟨rfl, rfl, rfl⟩

/-- C3, amended: purchase processing never deduplicates — every
successful application of a Purchased event (Apple SUBSCRIBED, Google
type 4) appends one fresh subscription row and one fresh entitlement
row per product-entitlement mapping, so applying the same event twice
leaves two subscription rows for the same (store,
original_transaction_id) and doubled entitlement rows. -/
theorem C3_amended_theorem (payload : AppleNotificationPayload)
    (tid otid pid : String) (tok : Option String) (exp : Option Time) (now : Time)
    (db db' : Db) (gn : GoogleSubscription) (oid : String) (expiry : Time) (ar : Bool) :
    (process_new_subscription payload tid otid pid tok exp now db = .ok db' →
      payload.data.signed_transaction_info.isSome = true →
      db'.subscriptions.length = db.subscriptions.length + 1 ∧
      ∀ (product : Product),
        Product.find_by_store_product_id "apple" pid db = .ok (some product) →
        db'.user_entitlements.length =
          db.user_entitlements.length + (product.get_entitlements db).length) ∧
    (process_subscription_purchased gn oid expiry ar now db = .ok db' →
      db'.subscriptions.length = db.subscriptions.length + 1 ∧
      ∀ (product : Product),
        Product.find_by_store_product_id "google" gn.subscription_id db =
          .ok (some product) →
        db'.user_entitlements.length =
          db.user_entitlements.length + (product.get_entitlements db).length) := by
  constructor
  · intro h hsome
    cases hsti : payload.data.signed_transaction_info with
    | none => rw [hsti] at hsome; simp at hsome
    | some sig =>
      simp only [process_new_subscription, hsti] at h
      cases hp : Product.find_by_store_product_id "apple" pid db with
      | error e => rw [hp] at h; simp at h
      | ok op =>
        rw [hp] at h
        cases op with
        | none => simp at h
        | some product =>
          cases tok with
          | none => simp at h
          | some token =>
            cases hu : User.find_by_app_user_id token db with
            | some u =>
              simp only [hu, Except.ok.injEq] at h
              subst h
              refine ⟨?_, ?_⟩
              · rw [grant_subscriptions]
                simp [Db.insertSubscription, Db.genId]
              · intro product2 hp2
                obtain rfl : product = product2 := by simpa using hp2
                rw [grant_ue_length]
                rfl
            | none =>
              simp only [hu, Except.ok.injEq] at h
              subst h
              refine ⟨?_, ?_⟩
              · rw [grant_subscriptions]
                simp [Db.insertSubscription, Db.insertUser, Db.genId]
              · intro product2 hp2
                obtain rfl : product = product2 := by simpa using hp2
                rw [grant_ue_length]
                rfl
  · intro h
    cases hu : User.find_by_app_user_id gn.purchase_token db with
    | some u =>
      simp only [process_subscription_purchased, hu] at h
      split at h
      · simp at h
      · simp at h
      · rename_i product heq
        simp only [Except.ok.injEq] at h
        subst h
        have heq2 : Product.find_by_store_product_id "google" gn.subscription_id db =
            .ok (some product) := heq
        refine ⟨?_, ?_⟩
        · rw [grant_subscriptions]
          simp [Db.insertSubscription, Db.genId]
        · intro product2 hp2
          rw [heq2] at hp2
          obtain rfl : product = product2 := by simpa using hp2
          rw [grant_ue_length]
          rfl
    | none =>
      simp only [process_subscription_purchased, hu] at h
      split at h
      · simp at h
      · simp at h
      · rename_i product heq
        simp only [Except.ok.injEq] at h
        subst h
        have heq2 : Product.find_by_store_product_id "google" gn.subscription_id db =
            .ok (some product) := heq
        refine ⟨?_, ?_⟩
        · rw [grant_subscriptions]
          simp [Db.insertSubscription, Db.insertUser, Db.genId]
        · intro product2 hp2
          rw [heq2] at hp2
          obtain rfl : product = product2 := by simpa using hp2
          rw [grant_ue_length]
          rfl

/-- C3, witness: one Apple SUBSCRIBED on `dbEmpty` appends exactly one
subscription row and one entitlement row (one mapping in the catalog). -/
theorem C3_amended_witness :
    (resultDb (process_new_subscription (applePayload "SUBSCRIBED" (some "jwt") none)
      "tx1" "t1" "com.example.pro" (some "tok") (some 100) 10
      dbEmpty)).subscriptions.length = dbEmpty.subscriptions.length + 1 ∧
    (resultDb (process_new_subscription (applePayload "SUBSCRIBED" (some "jwt") none)
      "tx1" "t1" "com.example.pro" (some "tok") (some 100) 10
      dbEmpty)).user_entitlements.length =
      dbEmpty.user_entitlements.length + (sampleProduct.get_entitlements dbEmpty).length := by
  have h := (C3_amended_theorem (applePayload "SUBSCRIBED" (some "jwt") none)
    "tx1" "t1" "com.example.pro" (some "tok") (some 100) 10 dbEmpty
    (resultDb (process_new_subscription (applePayload "SUBSCRIBED" (some "jwt") none)
      "tx1" "t1" "com.example.pro" (some "tok") (some 100) 10 dbEmpty))
    (googleNotice 4) "GPA.1" 80 true).1 rfl rfl
  exact ⟨h.1, h.2 sampleProduct rfl⟩

/-- C4, counterexample.  The claim states that a Renewed event on an
Expired subscription creates fresh entitlement rows for Apple DID_RENEW
and Google RESTARTED alike.  On `dbExpired` (expired subscription,
entitlement force-expired at 40), Apple DID_RENEW at time 50 sets the
subscription back to Active but creates no entitlement rows at all: the
entitlement table is unchanged and access is not re-granted. -/
theorem C4_counterexample :
    dbExpired.subscriptions.map Subscription.status = ["expired"] ∧
    (resultDb (process_subscription_renewal (applePayload "DID_RENEW" (some "jwt") none)
        "t2" "t1" (some 150) 50 dbExpired)).subscriptions.map Subscription.status =
      ["active"] ∧
    (resultDb (process_subscription_renewal (applePayload "DID_RENEW" (some "jwt") none)
        "t2" "t1" (some 150) 50 dbExpired)).user_entitlements =
      dbExpired.user_entitlements ∧
    dbExpired.user_entitlements.map UserEntitlement.expires_at = [some 40] :=
  ⟨rfl, rfl, rfl, rfl⟩

/-- C4, amended: only Google RESTARTED (type 7) re-grants — it sets the
subscription Active with the event expiry, leaves every pre-existing
entitlement row in place, and appends one fresh row per
product-entitlement mapping dated from the event time.  Apple DID_RENEW
on an Expired subscription sets the status Active and the new expiry
but appends no entitlement rows and leaves every inactive (previously
force-expired) row unmodified. -/
theorem C4_amended_theorem (gn : GoogleSubscription) (net : Time)
    (payload : AppleNotificationPayload) (tid otid : String) (exp : Option Time)
    (now : Time) (db db' : Db) (sub : Subscription) :
    (process_subscription_restarted gn net now db = .ok db' →
      Subscription.find_by_store_transaction "google" gn.purchase_token db = some sub →
      (∃ s', s' ∈ db'.subscriptions ∧ s'.id = sub.id ∧ s'.status = "active" ∧
        s'.expires_date = some net) ∧
      (∀ (i : Nat) (e : UserEntitlement), db.user_entitlements[i]? = some e →
        db'.user_entitlements[i]? = some e) ∧
      (∀ (product : Product), Product.find_by_id sub.product_id db = some product →
        db'.user_entitlements.length =
          db.user_entitlements.length + (product.get_entitlements db).length) ∧
      (∀ e', e' ∈ db'.user_entitlements → e' ∈ db.user_entitlements ∨
        (e'.subscription_id = some sub.id ∧ e'.starts_at = now ∧
          e'.expires_at = some net))) ∧
    (process_subscription_renewal payload tid otid exp now db = .ok db' →
      payload.data.signed_transaction_info.isSome = true →
      Subscription.find_by_store_transaction "apple" otid db = some sub →
      (∃ s', s' ∈ db'.subscriptions ∧ s'.id = sub.id ∧ s'.status = "active" ∧
        s'.expires_date = exp) ∧
      db'.user_entitlements.length = db.user_entitlements.length ∧
      (∀ (i : Nat) (e : UserEntitlement), db.user_entitlements[i]? = some e →
        e.isActiveAt now = false → db'.user_entitlements[i]? = some e)) := by
  constructor
  · intro h hfind
    simp only [process_subscription_restarted, hfind] at h
    split at h
    · simp at h
    · rename_i product heq
      simp only [Except.ok.injEq] at h
      subst h
      refine ⟨?_, ?_, ?_, ?_⟩
      · refine ⟨{ sub with
                  expires_date := some net,
                  status := SubscriptionStatus.Active.toStr, updated_at := now },
          ?_, rfl, rfl, rfl⟩
        rw [grant_subscriptions]
        exact writeSubscription_mem db sub _ (List.mem_of_find?_eq_some hfind) rfl
      · intro i e he
        exact grant_ue_prefix _ _ _ _ _ _ _ i e he
      · intro product2 hp2
        have heq2 : Product.find_by_id sub.product_id db = some product := heq
        rw [heq2] at hp2
        obtain rfl : product = product2 := by simpa using hp2
        rw [grant_ue_length]
        rfl
      · intro e' he'
        rcases grant_ue_mem _ _ _ _ _ _ _ e' he' with hold | hnew
        · exact Or.inl hold
        · exact Or.inr ⟨hnew.2.1, hnew.2.2.1, hnew.2.2.2⟩
  · intro h hsome hfind
    cases hsti : payload.data.signed_transaction_info with
    | none => rw [hsti] at hsome; simp at hsome
    | some sig =>
      simp only [process_subscription_renewal, hsti, hfind, Except.ok.injEq] at h
      subst h
      refine ⟨?_, ?_, ?_⟩
      · refine ⟨{ sub with
                  store_transaction_id := some tid, expires_date := exp,
                  status := SubscriptionStatus.Active.toStr, updated_at := now },
          ?_, rfl, rfl, rfl⟩
        rw [cascade_subscriptions]
        exact writeSubscription_mem db sub _ (List.mem_of_find?_eq_some hfind) rfl
      · rw [cascade_ue, writeSubscription_ue]
        exact List.length_map _ _
      · intro i e he hina
        exact (ueDiscipline_map now sub.user_id sub.id exp db.user_entitlements i e he).1 hina

/-- C4, witness: Google RESTARTED on `dbExpiredGoogle` at time 50 with
new expiry 80 — the subscription row is Active with expiry 80 (fresh
entitlement rows are appended per the amended theorem). -/
theorem C4_amended_witness :
    ∃ s', s' ∈ (resultDb (process_subscription_restarted (googleNotice 7) 80 50
        dbExpiredGoogle)).subscriptions ∧
      s'.id = (sampleSub "google" "gtok" "expired" (some 40) none).id ∧
      s'.status = "active" ∧ s'.expires_date = some 80 :=
  ((C4_amended_theorem (googleNotice 7) 80 (applePayload "DID_RENEW" (some "jwt") none)
    "t2" "t1" (some 150) 50 dbExpiredGoogle
    (resultDb (process_subscription_restarted (googleNotice 7) 80 50 dbExpiredGoogle))
    (sampleSub "google" "gtok" "expired" (some 40) none)).1 rfl rfl).1

/-- C5, counterexample.  The claim states that a Renewed event sets the
new expiry on every entitlement row whose subscription_id matches,
including rows whose expires_at has already passed.  On `dbMixedEnts`
(rows e1 expiring at 100 and e2 already expired at 40, both linked to
the subscription), Apple DID_RENEW at time 50 with new expiry 200
updates only e1; e2 keeps expires_at 40. -/
theorem C5_counterexample :
    dbMixedEnts.user_entitlements.map UserEntitlement.expires_at = [some 100, some 40] ∧
    dbMixedEnts.user_entitlements.map UserEntitlement.subscription_id =
      [some "s1", some "s1"] ∧
    (resultDb (process_subscription_renewal (applePayload "DID_RENEW" (some "jwt") none)
        "t2" "t1" (some 200) 50 dbMixedEnts)).user_entitlements.map
      UserEntitlement.expires_at = [some 200, some 40] :=
  ⟨rfl, rfl, rfl⟩

/-- C5, amended: a Renewed event (Apple DID_RENEW, Google type 2) sets
the event's new expiry exactly on the linked entitlement rows of the
subscription's user that are active at processing time (starts_at ≤ now
and expires_at null or > now); rows inactive at processing time —
including those whose expires_at has already passed — are left
unchanged. -/
theorem C5_amended_theorem (payload : AppleNotificationPayload)
    (tid otid : String) (exp : Option Time) (now : Time) (db db' : Db)
    (sub : Subscription) (gn : GoogleSubscription) (net : Time) :
    (process_subscription_renewal payload tid otid exp now db = .ok db' →
      payload.data.signed_transaction_info.isSome = true →
      Subscription.find_by_store_transaction "apple" otid db = some sub →
      (∀ (i : Nat) (e : UserEntitlement), db.user_entitlements[i]? = some e →
        e.user_id = sub.user_id → e.subscription_id = some sub.id →
        e.isActiveAt now = true →
        db'.user_entitlements[i]? = some { e with expires_at := exp, updated_at := now }) ∧
      (∀ (i : Nat) (e : UserEntitlement), db.user_entitlements[i]? = some e →
        e.isActiveAt now = false → db'.user_entitlements[i]? = some e)) ∧
    (process_subscription_renewed gn net now db = .ok db' →
      Subscription.find_by_store_transaction "google" gn.purchase_token db = some sub →
      (∀ (i : Nat) (e : UserEntitlement), db.user_entitlements[i]? = some e →
        e.user_id = sub.user_id → e.subscription_id = some sub.id →
        e.isActiveAt now = true →
        db'.user_entitlements[i]? =
          some { e with expires_at := some net, updated_at := now }) ∧
      (∀ (i : Nat) (e : UserEntitlement), db.user_entitlements[i]? = some e →
        e.isActiveAt now = false → db'.user_entitlements[i]? = some e)) := by
  constructor
  · intro h hsome hfind
    cases hsti : payload.data.signed_transaction_info with
    | none => rw [hsti] at hsome; simp at hsome
    | some sig =>
      simp only [process_subscription_renewal, hsti, hfind, Except.ok.injEq] at h
      subst h
      constructor
      · intro i e he hu hs ha
        rw [cascade_ue, writeSubscription_ue]
        exact map_cascade_at_active sub.user_id sub.id now exp
          db.user_entitlements i e he hu hs ha
      · intro i e he hina
        exact (ueDiscipline_map now sub.user_id sub.id exp db.user_entitlements i e he).1 hina
  · intro h hfind
    simp only [process_subscription_renewed, hfind, Except.ok.injEq] at h
    subst h
    constructor
    · intro i e he hu hs ha
      rw [cascade_ue, writeSubscription_ue]
      exact map_cascade_at_active sub.user_id sub.id now (some net)
        db.user_entitlements i e he hu hs ha
    · intro i e he hina
      exact (ueDiscipline_map now sub.user_id sub.id (some net)
        db.user_entitlements i e he).1 hina

/-- C5, witness: on `dbMixedEnts`, the Apple DID_RENEW at time 50 with
expiry 200 rewrites the active row e1 and leaves the expired row e2
exactly in place. -/
theorem C5_amended_witness :
    (resultDb (process_subscription_renewal (applePayload "DID_RENEW" (some "jwt") none)
      "t2" "t1" (some 200) 50 dbMixedEnts)).user_entitlements[0]? =
      some { sampleEnt "e1" 0 (some 100) with expires_at := some 200, updated_at := 50 } ∧
    (resultDb (process_subscription_renewal (applePayload "DID_RENEW" (some "jwt") none)
      "t2" "t1" (some 200) 50 dbMixedEnts)).user_entitlements[1]? =
      some (sampleEnt "e2" 0 (some 40)) := by
  have h := (C5_amended_theorem (applePayload "DID_RENEW" (some "jwt") none)
    "t2" "t1" (some 200) 50 dbMixedEnts
    (resultDb (process_subscription_renewal (applePayload "DID_RENEW" (some "jwt") none)
      "t2" "t1" (some 200) 50 dbMixedEnts))
    (sampleSub "apple" "t1" "active" (some 100) none) (googleNotice 2) 80).1 rfl rfl rfl
  exact ⟨h.1 0 (sampleEnt "e1" 0 (some 100)) rfl rfl rfl rfl,
    h.2 1 (sampleEnt "e2" 0 (some 40)) rfl rfl⟩

/-- C6, counterexample.  The claim states that a Renewed event clears
the `renewal_grace_period_expires_date` field.  On `dbGrace` (the field
holds 90), Apple DID_RENEW sets the status Active but the grace field
still holds 90 afterwards. -/
theorem C6_counterexample :
    dbGrace.subscriptions.map Subscription.renewal_grace_period_expires_date = [some 90] ∧
    (resultDb (process_subscription_renewal (applePayload "DID_RENEW" (some "jwt") none)
        "t2" "t1" (some 200) 50 dbGrace)).subscriptions.map
      Subscription.renewal_grace_period_expires_date = [some 90] ∧
    (resultDb (process_subscription_renewal (applePayload "DID_RENEW" (some "jwt") none)
        "t2" "t1" (some 200) 50 dbGrace)).subscriptions.map Subscription.status =
      ["active"] :=
  ⟨rfl, rfl, rfl⟩

/-- C6, amended: Apple DID_RENEW updates the stored transaction id, the
expiry and the status (Active); Google RENEWED (type 2) updates expiry
and status only, leaving the stored transaction id unchanged; neither
clears `renewal_grace_period_expires_date` — among the renewal-family
handlers only Google RECOVERED (type 1) clears it. -/
theorem C6_amended_theorem (payload : AppleNotificationPayload)
    (tid otid : String) (exp : Option Time) (now : Time) (db db' : Db)
    (sub : Subscription) (gn : GoogleSubscription) (net : Time) :
    (process_subscription_renewal payload tid otid exp now db = .ok db' →
      payload.data.signed_transaction_info.isSome = true →
      Subscription.find_by_store_transaction "apple" otid db = some sub →
      ∃ s', s' ∈ db'.subscriptions ∧ s'.id = sub.id ∧
        s'.store_transaction_id = some tid ∧ s'.expires_date = exp ∧
        s'.status = "active" ∧
        s'.renewal_grace_period_expires_date = sub.renewal_grace_period_expires_date) ∧
    (process_subscription_renewed gn net now db = .ok db' →
      Subscription.find_by_store_transaction "google" gn.purchase_token db = some sub →
      ∃ s', s' ∈ db'.subscriptions ∧ s'.id = sub.id ∧
        s'.store_transaction_id = sub.store_transaction_id ∧
        s'.expires_date = some net ∧ s'.status = "active" ∧
        s'.renewal_grace_period_expires_date = sub.renewal_grace_period_expires_date) ∧
    (process_subscription_recovered gn net now db = .ok db' →
      Subscription.find_by_store_transaction "google" gn.purchase_token db = some sub →
      ∃ s', s' ∈ db'.subscriptions ∧ s'.id = sub.id ∧
        s'.expires_date = some net ∧ s'.status = "active" ∧
        s'.renewal_grace_period_expires_date = none) := by
  refine ⟨?_, ?_, ?_⟩
  · intro h hsome hfind
    cases hsti : payload.data.signed_transaction_info with
    | none => rw [hsti] at hsome; simp at hsome
    | some sig =>
      simp only [process_subscription_renewal, hsti, hfind, Except.ok.injEq] at h
      subst h
      refine ⟨{ sub with
                store_transaction_id := some tid, expires_date := exp,
                status := SubscriptionStatus.Active.toStr, updated_at := now },
        ?_, rfl, rfl, rfl, rfl, rfl⟩
      rw [cascade_subscriptions]
      exact writeSubscription_mem db sub _ (List.mem_of_find?_eq_some hfind) rfl
  · intro h hfind
    simp only [process_subscription_renewed, hfind, Except.ok.injEq] at h
    subst h
    refine ⟨{ sub with
              expires_date := some net,
              status := SubscriptionStatus.Active.toStr, updated_at := now },
      ?_, rfl, rfl, rfl, rfl, rfl⟩
    rw [cascade_subscriptions]
    exact writeSubscription_mem db sub _ (List.mem_of_find?_eq_some hfind) rfl
  · intro h hfind
    simp only [process_subscription_recovered, hfind, Except.ok.injEq] at h
    subst h
    refine ⟨{ sub with
              expires_date := some net,
              status := SubscriptionStatus.Active.toStr,
              renewal_grace_period_expires_date := none, updated_at := now },
      ?_, rfl, rfl, rfl, rfl⟩
    rw [cascade_subscriptions]
    exact writeSubscription_mem db sub _ (List.mem_of_find?_eq_some hfind) rfl

/-- C6, witness: Apple DID_RENEW on `dbGrace` — the resulting row keeps
the grace-period field exactly as it was (90). -/
theorem C6_amended_witness :
    ∃ s', s' ∈ (resultDb (process_subscription_renewal
        (applePayload "DID_RENEW" (some "jwt") none) "t2" "t1" (some 200) 50
        dbGrace)).subscriptions ∧
      s'.id = (sampleSub "apple" "t1" "grace_period" (some 100) (some 90)).id ∧
      s'.store_transaction_id = some "t2" ∧ s'.expires_date = some 200 ∧
      s'.status = "active" ∧
      s'.renewal_grace_period_expires_date =
        (sampleSub "apple" "t1" "grace_period" (some 100) (some 90)).renewal_grace_period_expires_date :=
  (C6_amended_theorem (applePayload "DID_RENEW" (some "jwt") none) "t2" "t1"
    (some 200) 50 dbGrace
    (resultDb (process_subscription_renewal (applePayload "DID_RENEW" (some "jwt") none)
      "t2" "t1" (some 200) 50 dbGrace))
    (sampleSub "apple" "t1" "grace_period" (some 100) (some 90))
    (googleNotice 2) 80).1 rfl rfl rfl

/-- C7, counterexample.  The claim states that unrecognized vendor
types not designated advisory by the vendor are surfaced as errors; in
particular an unrecognized Google subscription-notification type
outside the handled set.  Type 9 (SUBSCRIPTION_DEFERRED) is neither
handled nor advisory, yet the webhook acknowledges it with success and
no state change. -/
theorem C7_counterexample :
    handle_google_webhook
      { version := "1.0", package_name := "pkg", event_time_millis := 0,
        subscription := some (googleNotice 9), one_time_product := none, test := none }
      googleMock 50 dbActive = .ok ("Webhook processed successfully", dbActive) ∧
    httpStatus (handle_google_webhook
      { version := "1.0", package_name := "pkg", event_time_millis := 0,
        subscription := some (googleNotice 9), one_time_product := none, test := none }
      googleMock 50 dbActive) = 200 :=
  ⟨rfl, rfl⟩

/-- C7, amended: an unknown Apple `notificationType` string and an
unknown Google one-time notification type are surfaced as `BadRequest`
(HTTP 400); an unrecognized Google subscription-notification type
outside the handled set {1,2,3,4,5,6,7,12,13}, however, is silently
ignored — processing succeeds and leaves the database unchanged. -/
theorem C7_amended_theorem (payload : AppleNotificationPayload) (m : AppleMockDecoded)
    (now : Time) (db : Db) (pkg : String) (gn : GoogleSubscription)
    (go : GoogleOneTimeProduct) (gm : GoogleMockDecoded) :
    (payload.notification_type ∉ (["CONSUMPTION_REQUEST", "DID_CHANGE_RENEWAL_PREF",
        "DID_CHANGE_RENEWAL_STATUS", "DID_FAIL_TO_RENEW", "DID_RENEW", "EXPIRED",
        "GRACE_PERIOD_EXPIRED", "OFFER_REDEEMED", "PRICE_INCREASE", "REFUND",
        "REFUND_DECLINED", "RENEWAL_EXTENDED", "REVOKE", "SUBSCRIBED"] : List String) →
      handle_apple_webhook payload m now db =
        .error (.BadRequest ("Unknown notification type: " ++
          payload.notification_type), db) ∧
      httpStatus (handle_apple_webhook payload m now db) = 400) ∧
    (gn.notification_type ∉ ([1, 2, 3, 4, 5, 6, 7, 12, 13] : List Int) →
      process_subscription_notice pkg gn gm now db = .ok db) ∧
    (go.notification_type ∉ ([1, 2] : List Int) →
      process_one_time_notice pkg go gm now db =
        .error (.BadRequest ("Unknown one-time notification type: " ++
          toString go.notification_type), db) ∧
      httpStatus (process_one_time_notice pkg go gm now db) = 400) := by
  refine ⟨?_, ?_, ?_⟩
  · intro hmem
    have hroute : apple_route payload m now db =
        .error (.BadRequest ("Unknown notification type: " ++
          payload.notification_type), db) := by
      unfold apple_route
      split
      all_goals try rfl
      all_goals (rename_i heq; rw [heq] at hmem; simp at hmem)
    constructor
    · unfold handle_apple_webhook
      rw [hroute]
    · unfold httpStatus handle_apple_webhook
      rw [hroute]
      rfl
  · intro hmem
    unfold process_subscription_notice
    split
    all_goals try rfl
    all_goals (rename_i heq; rw [heq] at hmem; simp at hmem)
  · intro hmem
    have hroute : process_one_time_notice pkg go gm now db =
        .error (.BadRequest ("Unknown one-time notification type: " ++
          toString go.notification_type), db) := by
      unfold process_one_time_notice
      split
      all_goals try rfl
      all_goals (rename_i heq; rw [heq] at hmem; simp at hmem)
    exact ⟨hroute, by rw [hroute]; rfl⟩

/-- C7, witness: an Apple payload of type "BOGUS" is rejected with 400,
a Google subscription notification of unhandled type 9 is accepted
silently, and a Google one-time notification of type 9 is rejected. -/
theorem C7_amended_witness :
    (handle_apple_webhook (applePayload "BOGUS" (some "jwt") none) appleMock 50 dbActive =
      .error (.BadRequest ("Unknown notification type: " ++
        (applePayload "BOGUS" (some "jwt") none).notification_type), dbActive) ∧
     httpStatus (handle_apple_webhook (applePayload "BOGUS" (some "jwt") none)
       appleMock 50 dbActive) = 400) ∧
    process_subscription_notice "pkg" (googleNotice 9) googleMock 50 dbActive =
      .ok dbActive := by
  have h := C7_amended_theorem (applePayload "BOGUS" (some "jwt") none) appleMock 50
    dbActive "pkg" (googleNotice 9)
    { version := "1.0", notification_type := 9, purchase_token := "gtok", sku := "pro_monthly" }
    googleMock
  exact ⟨h.1 (by decide), h.2.1 (by decide)⟩

/-- C8, counterexample.  The claim states that an Apple state-changing
notification lacking `signedTransactionInfo` is rejected as Malformed
with HTTP 400.  A SUBSCRIBED payload without that field is acknowledged
with HTTP 200 and no effect. -/
theorem C8_counterexample :
    handle_apple_webhook (applePayload "SUBSCRIBED" none none) appleMock 50 dbEmpty =
      .ok ("Webhook processed successfully", dbEmpty) ∧
    httpStatus (handle_apple_webhook (applePayload "SUBSCRIBED" none none)
      appleMock 50 dbEmpty) = 200 :=
  ⟨rfl, rfl⟩

/-- C8, amended: for every Apple notification type guarded on
`signedTransactionInfo` (SUBSCRIBED, DID_RENEW, EXPIRED,
GRACE_PERIOD_EXPIRED, DID_FAIL_TO_RENEW, REFUND, RENEWAL_EXTENDED,
REVOKE), a payload lacking that field makes the webhook return success
(HTTP 200) with the database unchanged, rather than rejecting it as
malformed with HTTP 400. -/
theorem C8_amended_theorem (payload : AppleNotificationPayload) (m : AppleMockDecoded)
    (now : Time) (db : Db)
    (hsti : payload.data.signed_transaction_info = none)
    (hmem : payload.notification_type ∈ (["SUBSCRIBED", "DID_RENEW", "EXPIRED",
      "GRACE_PERIOD_EXPIRED", "DID_FAIL_TO_RENEW", "REFUND", "RENEWAL_EXTENDED",
      "REVOKE"] : List String)) :
    handle_apple_webhook payload m now db = .ok ("Webhook processed successfully", db) ∧
    httpStatus (handle_apple_webhook payload m now db) = 200 := by
  obtain ⟨nt, st, uu, vv, ⟨a1, a2, a3, a4, sri, sti⟩, sd⟩ := payload
  simp only [List.mem_cons, List.not_mem_nil, or_false] at hmem
  dsimp only at hsti hmem
  subst hsti
  rcases hmem with rfl | rfl | rfl | rfl | rfl | rfl | rfl | rfl
  all_goals exact ⟨rfl, rfl⟩

/-- C8, witness: the amended theorem at a concrete REFUND payload
without `signedTransactionInfo` on `dbActive`. -/
theorem C8_amended_witness :
    handle_apple_webhook (applePayload "REFUND" none none) appleMock 50 dbActive =
      .ok ("Webhook processed successfully", dbActive) ∧
    httpStatus (handle_apple_webhook (applePayload "REFUND" none none)
      appleMock 50 dbActive) = 200 :=
  C8_amended_theorem (applePayload "REFUND" none none) appleMock 50 dbActive
    rfl (by decide)

/-- C9: an EnteredGrace event (Apple DID_FAIL_TO_RENEW, Google type 6
IN_GRACE_PERIOD) sets the subscription status to "grace_period" with
the grace-period-expiry date, and leaves the entitlement table exactly
unchanged — in particular no entitlement's expires_at is reduced. -/
theorem C9_theorem (payload : AppleNotificationPayload) (otid : String)
    (gpe : Option Time) (now : Time) (db db' : Db) (gn : GoogleSubscription)
    (g : Time) :
    (process_renewal_failure payload otid gpe now db = .ok db' →
      db'.user_entitlements = db.user_entitlements ∧
      (payload.data.signed_transaction_info.isSome = true →
        ∀ sub, Subscription.find_by_store_transaction "apple" otid db = some sub →
          ∃ s', s' ∈ db'.subscriptions ∧ s'.id = sub.id ∧ s'.status = "grace_period" ∧
            s'.renewal_grace_period_expires_date = gpe)) ∧
    (process_subscription_in_grace_period gn g now db = .ok db' →
      db'.user_entitlements = db.user_entitlements ∧
      ∀ sub, Subscription.find_by_store_transaction "google" gn.purchase_token db =
          some sub →
        ∃ s', s' ∈ db'.subscriptions ∧ s'.id = sub.id ∧ s'.status = "grace_period" ∧
          s'.renewal_grace_period_expires_date = some g) := by
  constructor
  · intro h
    cases hsti : payload.data.signed_transaction_info with
    | none =>
      simp only [process_renewal_failure, hsti, Except.ok.injEq] at h
      subst h
      exact ⟨rfl, fun hsome => by simp at hsome⟩
    | some sig =>
      cases hfind : Subscription.find_by_store_transaction "apple" otid db with
      | none => simp [process_renewal_failure, hsti, hfind] at h
      | some sub0 =>
        simp only [process_renewal_failure, hsti, hfind, Except.ok.injEq] at h
        subst h
        refine ⟨writeSubscription_ue db _, ?_⟩
        intro _ sub hfind2
        obtain rfl : sub0 = sub := Option.some.inj hfind2
        refine ⟨{ sub0 with
                  status := SubscriptionStatus.GracePeriod.toStr,
                  renewal_grace_period_expires_date := gpe, updated_at := now },
          ?_, rfl, rfl, rfl⟩
        exact writeSubscription_mem db sub0 _ (List.mem_of_find?_eq_some hfind) rfl
  · intro h
    cases hfind : Subscription.find_by_store_transaction "google" gn.purchase_token db with
    | none => simp [process_subscription_in_grace_period, hfind] at h
    | some sub0 =>
      simp only [process_subscription_in_grace_period, hfind, Except.ok.injEq] at h
      subst h
      refine ⟨writeSubscription_ue db _, ?_⟩
      intro sub hfind2
      obtain rfl : sub0 = sub := Option.some.inj hfind2
      refine ⟨{ sub0 with
                status := SubscriptionStatus.GracePeriod.toStr,
                renewal_grace_period_expires_date := some g, updated_at := now },
        ?_, rfl, rfl, rfl⟩
      exact writeSubscription_mem db sub0 _ (List.mem_of_find?_eq_some hfind) rfl

/-- C9, witness: Apple DID_FAIL_TO_RENEW on `dbActive` at time 50 with
grace end 66 — entitlements unchanged, subscription in grace period. -/
theorem C9_witness :
    (resultDb (process_renewal_failure (applePayload "DID_FAIL_TO_RENEW" (some "jwt") none)
      "t1" (some 66) 50 dbActive)).user_entitlements = dbActive.user_entitlements ∧
    ∃ s', s' ∈ (resultDb (process_renewal_failure
        (applePayload "DID_FAIL_TO_RENEW" (some "jwt") none)
        "t1" (some 66) 50 dbActive)).subscriptions ∧
      s'.id = (sampleSub "apple" "t1" "active" (some 100) none).id ∧
      s'.status = "grace_period" ∧
      s'.renewal_grace_period_expires_date = some 66 := by
  have h := (C9_theorem (applePayload "DID_FAIL_TO_RENEW" (some "jwt") none) "t1"
    (some 66) 50 dbActive
    (resultDb (process_renewal_failure (applePayload "DID_FAIL_TO_RENEW" (some "jwt") none)
      "t1" (some 66) 50 dbActive))
    (googleNotice 6) 66).1 rfl
  exact ⟨h.1, h.2 rfl (sampleSub "apple" "t1" "active" (some 100) none) rfl⟩

/-- C10: every event-processing path that mutates existing entitlement
rows (renewal, expiration, grace-period-expired, refund, revocation,
on-hold, extension, restart, one-time refund) obeys the cascade
discipline: a row inactive at processing time is never modified, and
any row that changes was active at processing time and linked to a
subscription. -/
theorem C10_theorem (payload : AppleNotificationPayload) (tid otid : String)
    (exp : Option Time) (net newExp _g : Time) (now : Time)
    (gn : GoogleSubscription) (go : GoogleOneTimeProduct) :
    CascadeDiscipline (process_subscription_renewal payload tid otid exp now) now ∧
    CascadeDiscipline (process_subscription_expiration payload otid now) now ∧
    CascadeDiscipline (process_grace_period_expiration payload otid now) now ∧
    CascadeDiscipline (process_refund payload tid otid now) now ∧
    CascadeDiscipline (process_subscription_revocation payload otid now) now ∧
    CascadeDiscipline (process_renewal_extension payload otid newExp now) now ∧
    CascadeDiscipline (process_subscription_renewed gn net now) now ∧
    CascadeDiscipline (process_subscription_expired gn now) now ∧
    CascadeDiscipline (process_subscription_recovered gn net now) now ∧
    CascadeDiscipline (process_subscription_on_hold gn now) now ∧
    CascadeDiscipline (process_subscription_restarted gn net now) now ∧
    CascadeDiscipline (process_subscription_revoked gn now) now ∧
    CascadeDiscipline (process_one_time_canceled go now) now := by
  refine ⟨?_, ?_, ?_, ?_, ?_, ?_, ?_, ?_, ?_, ?_, ?_, ?_, ?_⟩
  · intro db db' h
    cases hsti : payload.data.signed_transaction_info with
    | none =>
      simp only [process_subscription_renewal, hsti, Except.ok.injEq] at h
      subst h
      exact ueDiscipline_refl now _
    | some sig =>
      cases hfind : Subscription.find_by_store_transaction "apple" otid db with
      | none => simp [process_subscription_renewal, hsti, hfind] at h
      | some sub =>
        simp only [process_subscription_renewal, hsti, hfind, Except.ok.injEq] at h
        subst h
        exact ueDiscipline_map now sub.user_id sub.id _ db.user_entitlements
  · intro db db' h
    cases hsti : payload.data.signed_transaction_info with
    | none =>
      simp only [process_subscription_expiration, hsti, Except.ok.injEq] at h
      subst h
      exact ueDiscipline_refl now _
    | some sig =>
      cases hfind : Subscription.find_by_store_transaction "apple" otid db with
      | none => simp [process_subscription_expiration, hsti, hfind] at h
      | some sub =>
        simp only [process_subscription_expiration, hsti, hfind, Except.ok.injEq] at h
        subst h
        exact ueDiscipline_map now sub.user_id sub.id _ db.user_entitlements
  · intro db db' h
    cases hsti : payload.data.signed_transaction_info with
    | none =>
      simp only [process_grace_period_expiration, hsti, Except.ok.injEq] at h
      subst h
      exact ueDiscipline_refl now _
    | some sig =>
      cases hfind : Subscription.find_by_store_transaction "apple" otid db with
      | none => simp [process_grace_period_expiration, hsti, hfind] at h
      | some sub =>
        simp only [process_grace_period_expiration, hsti, hfind, Except.ok.injEq] at h
        subst h
        exact ueDiscipline_map now sub.user_id sub.id _ db.user_entitlements
  · intro db db' h
    cases hsti : payload.data.signed_transaction_info with
    | none =>
      simp only [process_refund, hsti, Except.ok.injEq] at h
      subst h
      exact ueDiscipline_refl now _
    | some sig =>
      cases hfind : Subscription.find_by_store_transaction "apple" otid db with
      | none => simp [process_refund, hsti, hfind] at h
      | some sub =>
        simp only [process_refund, hsti, hfind, Except.ok.injEq] at h
        subst h
        exact ueDiscipline_map now sub.user_id sub.id _ db.user_entitlements
  · intro db db' h
    cases hsti : payload.data.signed_transaction_info with
    | none =>
      simp only [process_subscription_revocation, hsti, Except.ok.injEq] at h
      subst h
      exact ueDiscipline_refl now _
    | some sig =>
      cases hfind : Subscription.find_by_store_transaction "apple" otid db with
      | none => simp [process_subscription_revocation, hsti, hfind] at h
      | some sub =>
        simp only [process_subscription_revocation, hsti, hfind, Except.ok.injEq] at h
        subst h
        exact ueDiscipline_map now sub.user_id sub.id _ db.user_entitlements
  · intro db db' h
    cases hsti : payload.data.signed_transaction_info with
    | none =>
      simp only [process_renewal_extension, hsti, Except.ok.injEq] at h
      subst h
      exact ueDiscipline_refl now _
    | some sig =>
      cases hfind : Subscription.find_by_store_transaction "apple" otid db with
      | none => simp [process_renewal_extension, hsti, hfind] at h
      | some sub =>
        simp only [process_renewal_extension, hsti, hfind, Except.ok.injEq] at h
        subst h
        exact ueDiscipline_map now sub.user_id sub.id _ db.user_entitlements
  · intro db db' h
    cases hfind : Subscription.find_by_store_transaction "google" gn.purchase_token db with
    | none => simp [process_subscription_renewed, hfind] at h
    | some sub =>
      simp only [process_subscription_renewed, hfind, Except.ok.injEq] at h
      subst h
      exact ueDiscipline_map now sub.user_id sub.id _ db.user_entitlements
  · intro db db' h
    cases hfind : Subscription.find_by_store_transaction "google" gn.purchase_token db with
    | none => simp [process_subscription_expired, hfind] at h
    | some sub =>
      simp only [process_subscription_expired, hfind, Except.ok.injEq] at h
      subst h
      exact ueDiscipline_map now sub.user_id sub.id _ db.user_entitlements
  · intro db db' h
    cases hfind : Subscription.find_by_store_transaction "google" gn.purchase_token db with
    | none => simp [process_subscription_recovered, hfind] at h
    | some sub =>
      simp only [process_subscription_recovered, hfind, Except.ok.injEq] at h
      subst h
      exact ueDiscipline_map now sub.user_id sub.id _ db.user_entitlements
  · intro db db' h
    cases hfind : Subscription.find_by_store_transaction "google" gn.purchase_token db with
    | none => simp [process_subscription_on_hold, hfind] at h
    | some sub =>
      simp only [process_subscription_on_hold, hfind, Except.ok.injEq] at h
      subst h
      exact ueDiscipline_map now sub.user_id sub.id _ db.user_entitlements
  · intro db db' h
    cases hfind : Subscription.find_by_store_transaction "google" gn.purchase_token db with
    | none => simp [process_subscription_restarted, hfind] at h
    | some sub =>
      simp only [process_subscription_restarted, hfind] at h
      split at h
      · simp at h
      · rename_i product heq
        simp only [Except.ok.injEq] at h
        subst h
        exact ueDiscipline_of_keep now _ _
          (fun i e he => grant_ue_prefix _ _ _ _ _ _ _ i e he)
  · intro db db' h
    cases hfind : Subscription.find_by_store_transaction "google" gn.purchase_token db with
    | none => simp [process_subscription_revoked, hfind] at h
    | some sub =>
      simp only [process_subscription_revoked, hfind, Except.ok.injEq] at h
      subst h
      exact ueDiscipline_map now sub.user_id sub.id _ db.user_entitlements
  · intro db db' h
    cases hfind : Subscription.find_by_store_transaction "google" go.purchase_token db with
    | none => simp [process_one_time_canceled, hfind] at h
    | some sub =>
      simp only [process_one_time_canceled, hfind, Except.ok.injEq] at h
      subst h
      exact ueDiscipline_map now sub.user_id sub.id _ db.user_entitlements

/-- C10, witness: the discipline instantiated on `dbMixedEnts` — the
already-expired row e2 is untouched by an Apple DID_RENEW at time 50. -/
theorem C10_witness :
    (resultDb (process_subscription_renewal (applePayload "DID_RENEW" (some "jwt") none)
      "t2" "t1" (some 200) 50 dbMixedEnts)).user_entitlements[1]? =
      some (sampleEnt "e2" 0 (some 40)) := by
  have h := (C10_theorem (applePayload "DID_RENEW" (some "jwt") none) "t2" "t1"
    (some 200) 80 150 66 50 (googleNotice 2)
    { version := "1.0", notification_type := 2, purchase_token := "gtok",
      sku := "pro_monthly" }).1
  exact (h dbMixedEnts
    (resultDb (process_subscription_renewal (applePayload "DID_RENEW" (some "jwt") none)
      "t2" "t1" (some 200) 50 dbMixedEnts))
    rfl 1 (sampleEnt "e2" 0 (some 40)) rfl).1 rfl

end Payments
